import Mathlib

set_option maxRecDepth 100000

/- Verification development for the bvr_chirp alert relay.

   The Rust sources are embedded shallowly: strings are `List Char`, the
   template renderers are the literal chains of `str::replace` calls from
   `clients/slack_client.rs` and `clients/matrix_client.rs`, ingestion is the
   field-extraction and fan-out loop of `clients/mqtt_client.rs`, and the
   per-destination startup/worker behaviour is modelled as explicit outcome
   values (process exit, worker error return, panic, delivery error). -/

abbrev Str := List Char

/-- One pass of Rust `str::replace`: scan left to right, replacing each
non-overlapping occurrence of `p` by `r`.  Written with explicit fuel so the
function is structurally recursive and computable by the kernel;
`replaceAll` supplies fuel `s.length`, which never runs out because every
step consumes at least one character of `s` (the patterns used by the
program are all non-empty). -/
def replaceGo : Nat → Str → Str → Str → Str
  | 0, _, _, s => s
  | _ + 1, _, _, [] => []
  | n + 1, p, r, c :: t =>
    if !p.isEmpty && p.isPrefixOf (c :: t) then
      r ++ replaceGo n p r ((c :: t).drop p.length)
    else
      c :: replaceGo n p r t

/-- Rust `str::replace s p r` (for the non-empty patterns the program uses). -/
def replaceAll (p r s : Str) : Str := replaceGo s.length p r s

/-- `occursIn p s` holds iff `p` occurs as a contiguous substring of `s`. -/
def occursIn (p s : Str) : Bool :=
  match s with
  | [] => p.isEmpty
  | c :: t => p.isPrefixOf (c :: t) || occursIn p t

/-- `safeLitB q a` says the literal `a` is transparent for pattern `q`: no
occurrence of `q` starts at any position of `a`, even one that would extend
past the end of `a` into whatever follows it. -/
def safeLitB (q a : Str) : Bool :=
  match a with
  | [] => true
  | c :: t => !(c :: t).isPrefixOf q && !q.isPrefixOf (c :: t) && safeLitB q t

/-! ### `message_templates.rs`: the two templates, and the literal segments
between consecutive placeholder occurrences (in text order).  The segment
decompositions are checked against the full template strings by kernel
evaluation in `slack_split` / `matrix_split1` below. -/
def sU0 : Str := ("\n[\n\t\x7b\n\t\t\"type\": \"divider\"\n\t\x7d,\n\t\x7b\n\t\t\"type\": \"image\",\n\t\t\"slack_file\": \x7b\n\t\t\t\"id\": \"").data
def sU1 : Str := ("\"\n\t\t\x7d,\n        \"alt_text\": \"camera image\"\n\t\x7d,\n\t\x7b\n\t\t\"type\": \"section\",\n\t\t\"text\": \x7b\n\t\t\t\"type\": \"mrkdwn\",\n\t\t\t\"text\": \"Detection on ").data
def sU2 : Str := (" camera\"\n\t\t\x7d,\n\t\t\"accessory\": \x7b\n\t\t\t\"type\": \"button\",\n\t\t\t\"text\": \x7b\n\t\t\t\t\"type\": \"plain_text\",\n\t\t\t\t\"text\": \"View Alert\",\n\t\t\t\t\"emoji\": false\n\t\t\t\x7d,\n\t\t\t\"value\": \"click_me_123\",\n\t\t\t\"url\": \"").data
def sU3 : Str := ("\",\n\t\t\t\"action_id\": \"button-action\"\n\t\t\x7d\n\t\x7d,\n\t\x7b\n\t\t\"type\": \"section\",\n\t\t\"fields\": [\n\t\t\t\x7b\n\t\t\t\t\"type\": \"mrkdwn\",\n\t\t\t\t\"text\": \"Time\"\n\t\t\t\x7d,\n\t\t\t\x7b\n\t\t\t\t\"type\": \"plain_text\",\n\t\t\t\t\"text\": \"").data
def sU4 : Str := ("\",\n\t\t\t\t\"emoji\": false\n\t\t\t\x7d,\n\t\t\t\x7b\n\t\t\t\t\"type\": \"mrkdwn\",\n\t\t\t\t\"text\": \"Detections\"\n\t\t\t\x7d,\n\t\t\t\x7b\n\t\t\t\t\"type\": \"plain_text\",\n\t\t\t\t\"text\": \"").data
def sU5 : Str := ("\",\n\t\t\t\t\"emoji\": false\n\t\t\t\x7d\n\t\t]\n\t\x7d\n]").data
def mA0 : Str := ("\x7b\n  \"msgtype\": \"m.room.message\",\n  \"body\": \"Detection on ").data
def mA1 : Str := (" camera\\n\\nDetections: ").data
def mA2 : Str := ("\\nTime ").data
def mA3 : Str := ("\",\n  \"formatted_body\": \"<strong>Detection on ").data
def mA4 : Str := (" camera</strong><br><br><strong>Detections</strong><br>").data
def mA5 : Str := ("<br><br><strong>Time</strong><br>").data
def mA6 : Str := ("\",\n  \"format\": \"org.matrix.custom.html\",\n  \"url\": \"").data
def mA7 : Str := ("\"\n\x7d").data

def SLACK_TEMPLATE : Str := ("\n[\n\t\x7b\n\t\t\"type\": \"divider\"\n\t\x7d,\n\t\x7b\n\t\t\"type\": \"image\",\n\t\t\"slack_file\": \x7b\n\t\t\t\"id\": \"<IMG_ID>\"\n\t\t\x7d,\n        \"alt_text\": \"camera image\"\n\t\x7d,\n\t\x7b\n\t\t\"type\": \"section\",\n\t\t\"text\": \x7b\n\t\t\t\"type\": \"mrkdwn\",\n\t\t\t\"text\": \"Detection on <CAMERA_NAME> camera\"\n\t\t\x7d,\n\t\t\"accessory\": \x7b\n\t\t\t\"type\": \"button\",\n\t\t\t\"text\": \x7b\n\t\t\t\t\"type\": \"plain_text\",\n\t\t\t\t\"text\": \"View Alert\",\n\t\t\t\t\"emoji\": false\n\t\t\t\x7d,\n\t\t\t\"value\": \"click_me_123\",\n\t\t\t\"url\": \"<ENDPOINT_URL>\",\n\t\t\t\"action_id\": \"button-action\"\n\t\t\x7d\n\t\x7d,\n\t\x7b\n\t\t\"type\": \"section\",\n\t\t\"fields\": [\n\t\t\t\x7b\n\t\t\t\t\"type\": \"mrkdwn\",\n\t\t\t\t\"text\": \"Time\"\n\t\t\t\x7d,\n\t\t\t\x7b\n\t\t\t\t\"type\": \"plain_text\",\n\t\t\t\t\"text\": \"<TIME>\",\n\t\t\t\t\"emoji\": false\n\t\t\t\x7d,\n\t\t\t\x7b\n\t\t\t\t\"type\": \"mrkdwn\",\n\t\t\t\t\"text\": \"Detections\"\n\t\t\t\x7d,\n\t\t\t\x7b\n\t\t\t\t\"type\": \"plain_text\",\n\t\t\t\t\"text\": \"<DETECTIONS>\",\n\t\t\t\t\"emoji\": false\n\t\t\t\x7d\n\t\t]\n\t\x7d\n]").data

def MATRIX_TEMPLATE : Str := ("\x7b\n  \"msgtype\": \"m.room.message\",\n  \"body\": \"Detection on <CAMERA_NAME> camera\\n\\nDetections: <DETECTIONS>\\nTime <TIME>\",\n  \"formatted_body\": \"<strong>Detection on <CAMERA_NAME> camera</strong><br><br><strong>Detections</strong><br><DETECTIONS><br><br><strong>Time</strong><br><TIME>\",\n  \"format\": \"org.matrix.custom.html\",\n  \"url\": \"<IMG_URI>\"\n\x7d").data

/-! ### Placeholder tokens of the templates -/

def phIMGID : Str := ("<IMG_ID>").data

def phIMGURI : Str := ("<IMG_URI>").data

def phCAM : Str := ("<CAMERA_NAME>").data

def phEND : Str := ("<ENDPOINT_URL>").data

def phTIME : Str := ("<TIME>").data

def phDET : Str := ("<DETECTIONS>").data

def slackPlaceholders : List Str := [phIMGID, phCAM, phEND, phTIME, phDET]

def matrixPlaceholders : List Str := [phIMGURI, phCAM, phTIME, phDET, phEND]

/-! ### Grouped template tails/prefixes used while peeling one placeholder at
a time off a template (all definitional regroupings of the segments). -/

def sR4 : Str := sU4 ++ (phDET ++ sU5)

def sR3 : Str := sU3 ++ (phTIME ++ sR4)

def sR2 : Str := sU2 ++ (phEND ++ sR3)

def sR1 : Str := sU1 ++ (phCAM ++ sR2)

def mC1 : Str := mA1 ++ (phDET ++ mA2)

def mC2 : Str := mA4 ++ (phDET ++ mA5)

def mB1 : Str := mC1 ++ (phTIME ++ mA3)

def mB2 : Str := mC2 ++ (phTIME ++ mA6)

def mW : Str := mA0 ++ (phCAM ++ (mB1 ++ (phCAM ++ mB2)))

/-! ### Data model: `bvr_chirp_message.rs` -/

/-- The canonical Alert Record (`BvrChirpMessage` in `bvr_chirp_message.rs`). -/
structure BvrChirpMessage where
  target : Str
  camera_name : Str
  detections : Str
  db_id : Str
  time : Str
  image : List Nat
deriving DecidableEq, Repr

/-- `BvrChirpMessage::new` from `bvr_chirp_message.rs`. -/
def BvrChirpMessage.new (target camera_name detections db_id time : Str)
    (image : List Nat) : BvrChirpMessage :=
  { target := target, camera_name := camera_name, detections := detections,
    db_id := db_id, time := time, image := image }

/-! ### `clients/slack_client.rs`: template rendering -/

namespace slack_client

/-- The deep-link URL built inside `build_message` by
`format!("{}/ui3.htm?rec={}&cam={}&m=1", alert_endpoint, bvr_msg.db_id, bvr_msg.camera_name)`. -/
def endpoint_url (alert_endpoint : Str) (bvr_msg : BvrChirpMessage) : Str :=
  alert_endpoint ++ (("/ui3.htm?rec=").data ++ (bvr_msg.db_id ++ (("&cam=").data ++ (bvr_msg.camera_name ++ ("&m=1").data))))

/-- `build_message` from `clients/slack_client.rs` (lines 262-276): the
sequential `str::replace` chain over `SLACK_TEMPLATE`. -/
def build_message (alert_endpoint : Str) (file_id : Str) (bvr_msg : BvrChirpMessage) : Str :=
  let msg := SLACK_TEMPLATE
  let msg := replaceAll phIMGID file_id msg
  let msg := replaceAll phCAM bvr_msg.camera_name msg
  let msg := replaceAll phEND (endpoint_url alert_endpoint bvr_msg) msg
  let msg := replaceAll phTIME bvr_msg.time msg
  let msg := replaceAll phDET bvr_msg.detections msg
  msg

/-- The same replacement chain applied to an arbitrary starting text: this is
the rendering function of `build_message` with the baked-in template made a
parameter, so that re-rendering an already rendered output can be stated
(`build_message ep f m = render SLACK_TEMPLATE ep f m` holds by `rfl`). -/
def render (tmpl : Str) (alert_endpoint : Str) (file_id : Str) (bvr_msg : BvrChirpMessage) : Str :=
  let msg := tmpl
  let msg := replaceAll phIMGID file_id msg
  let msg := replaceAll phCAM bvr_msg.camera_name msg
  let msg := replaceAll phEND (endpoint_url alert_endpoint bvr_msg) msg
  let msg := replaceAll phTIME bvr_msg.time msg
  let msg := replaceAll phDET bvr_msg.detections msg
  msg

end slack_client

/-! ### `clients/matrix_client.rs`: template rendering -/

namespace matrix_client

/-- The deep-link URL built inside `build_message` by
`format!("{}/ui3.htm?rec={}&cam={}&m=1", alert_endpoint, bvr_msg.db_id, bvr_msg.camera_name)`. -/
def endpoint_url (alert_endpoint : Str) (bvr_msg : BvrChirpMessage) : Str :=
  alert_endpoint ++ (("/ui3.htm?rec=").data ++ (bvr_msg.db_id ++ (("&cam=").data ++ (bvr_msg.camera_name ++ ("&m=1").data))))

/-- `build_message` from `clients/matrix_client.rs` (lines 164-176): the
sequential `str::replace` chain over `MATRIX_TEMPLATE`. -/
def build_message (content_uri : Str) (alert_endpoint : Str) (bvr_msg : BvrChirpMessage) : Str :=
  let msg := MATRIX_TEMPLATE
  let msg := replaceAll phIMGURI content_uri msg
  let msg := replaceAll phCAM bvr_msg.camera_name msg
  let msg := replaceAll phTIME bvr_msg.time msg
  let msg := replaceAll phDET bvr_msg.detections msg
  let msg := replaceAll phEND (endpoint_url alert_endpoint bvr_msg) msg
  msg

/-- The same replacement chain applied to an arbitrary starting text
(`build_message uri ep m = render MATRIX_TEMPLATE uri ep m` holds by `rfl`). -/
def render (tmpl : Str) (content_uri : Str) (alert_endpoint : Str) (bvr_msg : BvrChirpMessage) : Str :=
  let msg := tmpl
  let msg := replaceAll phIMGURI content_uri msg
  let msg := replaceAll phCAM bvr_msg.camera_name msg
  let msg := replaceAll phTIME bvr_msg.time msg
  let msg := replaceAll phDET bvr_msg.detections msg
  let msg := replaceAll phEND (endpoint_url alert_endpoint bvr_msg) msg
  msg

/-- `build_message` with the final `<ENDPOINT_URL>` replace call removed:
the comparison renderer used to state that the endpoint step is an identity
for the Matrix template. -/
def build_message_without_endpoint_step (content_uri : Str) (bvr_msg : BvrChirpMessage) : Str :=
  let msg := MATRIX_TEMPLATE
  let msg := replaceAll phIMGURI content_uri msg
  let msg := replaceAll phCAM bvr_msg.camera_name msg
  let msg := replaceAll phTIME bvr_msg.time msg
  let msg := replaceAll phDET bvr_msg.detections msg
  msg

end matrix_client

/-! ### `bvr_chirp_config.rs`: configuration and loading -/

structure MqttConfig where
  host : Str
  port : Nat
  max_packet_size : Nat
  topic : Str
  device_id : Str
  username : Str
  password : Str
deriving DecidableEq, Repr

structure MatrixConfig where
  enabled : Bool
  token : Str
  username : Str
  password : Str
  host : Str
  room_id : Str
  bot_name : Str
deriving DecidableEq, Repr

structure DiscordConfig where
  enabled : Bool
  token : Str
  channel_id : Str
  bot_name : Str
deriving DecidableEq, Repr

structure SlackConfig where
  enabled : Bool
  token : Str
  channel_id : Str
  bot_name : Str
deriving DecidableEq, Repr

structure BvrChirpConfig where
  alert_endpoint : Str
  mqtt_config : MqttConfig
  matrix_config : MatrixConfig
  discord_config : DiscordConfig
  slack_config : SlackConfig
deriving DecidableEq, Repr

/-- `impl Default for BvrChirpConfig` (`bvr_chirp_config.rs` lines 53-89). -/
def BvrChirpConfig.defaultConfig : BvrChirpConfig :=
  { alert_endpoint := ("http://127.0.0.1:81").data,
    mqtt_config :=
      { host := ("127.0.0.1").data, port := 1884, max_packet_size := 2048000,
        topic := ("my_topic/#").data, device_id := ("Bvr Chirp").data,
        username := [], password := [] },
    matrix_config :=
      { enabled := false, token := ("<token>").data, username := ("username").data,
        password := ("password").data, host := ("https://matrix.org").data,
        room_id := ("<room_id>").data, bot_name := ("Bvr Chirp Bot").data },
    discord_config :=
      { enabled := false, token := ("<token>").data, channel_id := ("<channel_id>").data,
        bot_name := ("Bvr Chirp Bot").data },
    slack_config :=
      { enabled := false, token := ("<api_key>").data, channel_id := ("<channel_id>").data,
        bot_name := ("Bvr Chirp Bot").data } }

/-- The error type of the external `confy` loader, as far as `load_config`
distinguishes it. -/
inductive ConfyError where
  | badTomlData (msg : Str)
  | otherError (msg : Str)
deriving DecidableEq, Repr

/-- `load_config` (`bvr_chirp_config.rs` lines 91-114).  The file system is a
map from path to `none` (file does not exist) or `some` result of
`confy::load_path`.  A missing file logs "trying defaults" and returns
`Ok(default)`; a `confy` failure is returned as `Err`. -/
def load_config (fs : Str → Option (Except ConfyError BvrChirpConfig))
    (config_path : Str) : Except ConfyError BvrChirpConfig :=
  match fs config_path with
  | none => .ok BvrChirpConfig.defaultConfig
  | some (.ok cfg) => .ok cfg
  | some (.error e) => .error e

/-- Outcome of the process startup: either `exit(code)` was called before the
core started, or the core (worker spawning plus the MQTT ingestion loop)
started with the given configuration. -/
inductive StartResult where
  | exited (code : Nat)
  | coreStarted (cfg : BvrChirpConfig)
deriving DecidableEq, Repr

/-- The startup prefix of `main` (`main.rs` lines 32-52): `exit(1)` when no
config-path argument is given or it is empty, load the configuration,
`exit(1)` on a load error, otherwise start the core. -/
def mainStartup (fs : Str → Option (Except ConfyError BvrChirpConfig))
    (args : List Str) : StartResult :=
  match args.get? 1 with
  | none => .exited 1
  | some p =>
    if p.isEmpty then .exited 1
    else
      match load_config fs p with
      | .ok cfg => .coreStarted cfg
      | .error _ => .exited 1

/-- The names of the destinations registered by `main` (`main.rs` lines
62-103): one entry per enabled service, pushed in the fixed order Discord,
Matrix, Slack. -/
def tx_senders_names (cfg : BvrChirpConfig) : List Str :=
  (if cfg.discord_config.enabled then [("Discord").data] else []) ++
  ((if cfg.matrix_config.enabled then [("Matrix").data] else []) ++
   (if cfg.slack_config.enabled then [("Slack").data] else []))

/-! ### `clients/mqtt_client.rs`: ingestion and fan-out -/

/-- A JSON value, as produced by `serde_json` parsing an inbound payload. -/
inductive Json where
  | null
  | jbool (b : Bool)
  | jnum (n : Int)
  | jstr (s : Str)
  | jarr (elems : List Json)
  | jobj (fields : List (Str × Json))

/-- `serde_json` `Value` string indexing (`payload_json["k"]`): on an object,
the value of the key (`Null` when absent); `Null` on any non-object. -/
def Json.index (j : Json) (k : Str) : Json :=
  match j with
  | .jobj fields =>
    match fields.find? (fun kv => kv.1 == k) with
    | some kv => kv.2
    | none => .null
  | _ => .null

/-- `serde_json` `Value::as_str`. -/
def Json.as_str (j : Json) : Option Str :=
  match j with
  | .jstr s => some s
  | _ => none

/-- A destination registration (`TxClient`, `clients/mqtt_client.rs` lines
13-16).  The queue is `some` list of already queued records while the
worker's receiving end is alive, and `none` once the receiver has been
dropped (a crossbeam send then fails). -/
structure TxClient where
  name : Str
  queue : Option (List BvrChirpMessage)
deriving DecidableEq, Repr

/-- `client.tx.send(message.clone())`: appends to a live queue and reports
success; fails leaving the queue state unchanged when the receiver is gone. -/
def txSend (c : TxClient) (m : BvrChirpMessage) : TxClient × Bool :=
  match c.queue with
  | some q => ({ name := c.name, queue := some (q ++ [m]) }, true)
  | none => (c, false)

/-- The fan-out loop `for client in &tx_clients { .. }`
(`clients/mqtt_client.rs` lines 143-149): one send per registered
destination, in registration order; a failed send is logged and the loop
continues with the remaining destinations. -/
def sendAll (m : BvrChirpMessage) : List TxClient → List TxClient × List Str
  | [] => ([], [])
  | c :: rest =>
    let res := txSend c m
    let tail := sendAll m rest
    (res.1 :: tail.1,
      (if res.2 then ("MQTT: Passed message to ").data ++ c.name
       else ("MQTT: Failed to send message through channel to ").data ++ c.name) :: tail.2)

/-- The six extracted required fields of a payload. -/
structure RawFields where
  target : Str
  camera : Str
  detections : Str
  db_id : Str
  time : Str
  image_base64 : Str
deriving DecidableEq, Repr

/-- The required-field extraction of the `Publish` arm of `mqtt_client::run`
(lines 74-120): the literal sequence of `payload_json["_"].as_str()` matches
from the source, with the source's diagnostic strings. -/
def extract_fields (payload_json : Json) : Except Str RawFields :=
  match (payload_json.index ("target").data).as_str with
  | none => .error ("MQTT: Missing 'target' field in JSON").data
  | some target =>
  match (payload_json.index ("camera").data).as_str with
  | none => .error ("MQTT: Missing 'camera' field in JSON").data
  | some camera =>
  match (payload_json.index ("detections").data).as_str with
  | none => .error ("MQTT: Missing 'detections' field in JSON").data
  | some detections =>
  match (payload_json.index ("db_id").data).as_str with
  | none => .error ("MQTT: Missing 'db_id' field in JSON").data
  | some db_id =>
  match (payload_json.index ("time").data).as_str with
  | none => .error ("MQTT: Missing 'time' field in JSON").data
  | some time =>
  match (payload_json.index ("image").data).as_str with
  | none => .error ("MQTT: Missing 'image' field in JSON").data
  | some image_base64 =>
    .ok { target := target, camera := camera, detections := detections,
          db_id := db_id, time := time, image_base64 := image_base64 }

/-- The six required field names, in the order the source checks them. -/
def requiredFields : List Str :=
  [("target").data, ("camera").data, ("detections").data, ("db_id").data,
   ("time").data, ("image").data]

/-- The diagnostic the source logs for a missing/non-string field `f`. -/
def missingFieldMsg (f : Str) : Str :=
  ("MQTT: Missing '").data ++ (f ++ ("' field in JSON").data)

/-- The full `Publish` arm for an already JSON-parsed payload (lines
74-149): extract the six fields (discarding the message with a diagnostic on
failure), log receipt, base64-decode the image (`b64` stands for the
external `BASE64_STANDARD.decode`; discard with a diagnostic on failure),
construct the Alert Record and fan it out to every registered queue.
Returns the updated queues and the log lines, in order. -/
def handlePublish (b64 : Str → Option (List Nat)) (payload_json : Json)
    (clients : List TxClient) : List TxClient × List Str :=
  match extract_fields payload_json with
  | .error e => (clients, [e])
  | .ok f =>
    let received := ("MQTT: Received message for camera: \"").data ++ (f.camera ++ [Char.ofNat 34])
    match b64 f.image_base64 with
    | none => (clients, [received, ("MQTT: Failed to decode base64 image").data])
    | some image =>
      let message := BvrChirpMessage.new f.target f.camera f.detections f.db_id f.time image
      let res := sendAll message clients
      (res.1, received :: res.2)

/-- One event from `connection.iter()`, as seen by the ingestion loop.  The
UTF-8 and JSON parse steps are external library calls, so a published
payload arrives already classified. -/
inductive MqttEvent where
  | publishJson (j : Json)
  | publishBadUtf8
  | publishBadJson
  | connError (e : Str)
  | otherEvent

/-- The ingestion loop of `mqtt_client::run` (lines 52-157) over a finite
prefix of connection events: malformed payloads are logged and skipped, a
connection error logs and breaks the loop, other events are ignored. -/
def runLoop (b64 : Str → Option (List Nat)) :
    List MqttEvent → List TxClient → List TxClient × List Str
  | [], clients => (clients, [])
  | ev :: rest, clients =>
    match ev with
    | .publishBadUtf8 =>
      let t := runLoop b64 rest clients
      (t.1, ("MQTT: Failed to convert payload to string").data :: t.2)
    | .publishBadJson =>
      let t := runLoop b64 rest clients
      (t.1, ("MQTT: Failed to parse JSON").data :: t.2)
    | .publishJson j =>
      let h := handlePublish b64 j clients
      let t := runLoop b64 rest h.1
      (t.1, h.2 ++ t.2)
    | .connError e =>
      (clients, [("MQTT: Error parsing message: ").data ++ e])
    | .otherEvent => runLoop b64 rest clients

/-! ### Destination worker startup outcomes (`main.rs`,
`clients/matrix_client.rs`, `clients/discord_client.rs`) -/

/-- Startup outcome of a destination worker: the whole process exits, the
worker function returns an error (only this worker's thread ends), or the
client is constructed and the worker enters its processing loop. -/
inductive WorkerStart where
  | procExit (code : Nat)
  | errReturn (log : Str)
  | ready
deriving DecidableEq, Repr

namespace matrix_client

/-- The startup portion of `run_matrix_client` (`clients/matrix_client.rs`
lines 128-136): when `MatrixClient::new` fails, the function logs
`"SLACK: unable to create client. Aborting"` and calls `exit(1)`, aborting
the whole process. -/
def run_matrix_client_start (init : Except Str Unit) : WorkerStart :=
  match init with
  | .ok _ => .ready
  | .error _ => .procExit 1

end matrix_client

namespace discord_client

/-- The startup portion of `discord_client::start` (lines 25-39): when
`Client::builder(..)` fails, the function logs and returns the error — only
this worker ends, the process continues. -/
def start_init (init : Except Str Unit) : WorkerStart :=
  match init with
  | .ok _ => .ready
  | .error err => .errReturn (("DISCORD: Error connecting client: ").data ++ err)

/-- A Discord embed as built by the `start` loop (lines 69-83). -/
structure DiscordEmbed where
  title : Str
  url : Str
  fields : List (Str × Str)
deriving DecidableEq, Repr

/-- Rust `str::parse::<u64>`: optional leading `+`, at least one ASCII
digit, value below `2^64`. -/
def parse_u64 (s : Str) : Option Nat :=
  let digits := match s with
    | '+' :: rest => rest
    | _ => s
  if digits.isEmpty then none
  else if digits.all (fun c => c.isDigit) then
    let v := digits.foldl (fun acc c => acc * 10 + (c.toNat - 48)) 0
    if v < 2 ^ 64 then some v else none
  else none

/-- One iteration of the `discord_client::start` loop body (lines 52-97)
after a message is received: parse the channel id from `alert.target` (the
alert is skipped with a log on failure; serenity channel ids are non-zero),
build the embed exactly as the source does, and name the attached image
`{camera_name}.jpg`.  Returns the channel id, the embed and the attachment
name. -/
def handle_message (alert_endpoint : Str) (bvr_msg : BvrChirpMessage) :
    Option (Nat × DiscordEmbed × Str) :=
  match parse_u64 bvr_msg.target with
  | none => none
  | some channel_id =>
    if channel_id == 0 then none
    else
      some (channel_id,
        { title := ("Detection on ").data ++ (bvr_msg.camera_name ++ (" camera").data),
          url := alert_endpoint ++ (("/ui3.htm?rec=").data ++ (bvr_msg.db_id ++ (("&cam=").data ++ (bvr_msg.camera_name ++ ("&m=1").data)))),
          fields := [(("**Detections**").data, bvr_msg.detections),
                     (("**Time**").data, bvr_msg.time)] },
        bvr_msg.camera_name ++ (".jpg").data)

/-- The readable text of an embed — title followed by the field labels and
values — used to state "the rendered message body contains X". -/
def embed_body (e : DiscordEmbed) : Str :=
  e.title ++ (e.fields.foldr (fun kv acc => kv.1 ++ (kv.2 ++ acc)) [])

end discord_client

/-! ### `clients/slack_client.rs`: the upload-then-post workflow -/

namespace slack_client

/-- Response of `files.getUploadURLExternal` (lines 21-25). -/
structure UploadUrlResponse where
  upload_url : Str
  file_id : Str
deriving DecidableEq, Repr

/-- Outcomes of the four network calls of the Slack workflow; the adapter's
behaviour is a pure function of these. -/
structure SlackEnv where
  get_upload_url_result : Except Str UploadUrlResponse
  upload_file_data_result : Except Str Unit
  complete_upload_result : Except Str Unit
  send_message_result : Except Str Unit

/-- Result of `upload_file`, including the possibility that the function
panics instead of returning. -/
inductive UploadOutcome where
  | ok (file_id : Str)
  | err (e : Str)
  | panicked (msg : Str)
deriving DecidableEq, Repr

/-- `SlackClient::upload_file` (lines 139-148): `get_upload_url` with `?`
(an error propagates as `Err`), `upload_file_data` with
`.expect("TODO: panic message")` (an error PANICS the worker thread),
`complete_upload` with `?` (an error propagates as `Err`). -/
def upload_file (env : SlackEnv) : UploadOutcome :=
  match env.get_upload_url_result with
  | .error e => .err e
  | .ok info =>
    match env.upload_file_data_result with
    | .error _ => .panicked ("TODO: panic message").data
    | .ok _ =>
      match env.complete_upload_result with
      | .error e => .err e
      | .ok _ => .ok info.file_id

/-- Result of `process_alert`, including the panic case. -/
inductive ProcessOutcome where
  | ok
  | deliveryError (e : Str)
  | panicked (msg : Str)
deriving DecidableEq, Repr

/-- `SlackClient::process_alert` (lines 180-208), together with a flag
recording whether the send-message step was invoked.  On upload failure the
remaining steps are skipped and a single delivery error is returned (or, for
the upload-bytes step, the panic propagates); on upload success the message
is built from the template, the settling delay elapses, and send_message
runs. -/
def process_alert (env : SlackEnv) (alert_endpoint : Str) (bvr_msg : BvrChirpMessage) :
    ProcessOutcome × Bool :=
  match upload_file env with
  | .panicked msg => (.panicked msg, false)
  | .err e => (.deliveryError (("Image upload failed: ").data ++ e), false)
  | .ok file_id =>
    let _msg := build_message alert_endpoint file_id bvr_msg
    match env.send_message_result with
    | .error e => (.deliveryError (("Failed to send message: ").data ++ e), true)
    | .ok _ => (.ok, true)

end slack_client

/-! ### `src/matrix_client.rs` (root module): room auto-join backoff -/

namespace matrix_client_root

/-- Observable behaviour of one auto-join retry loop: the arguments of the
successive `sleep(delay)` calls, the number of permanent-failure
(`"Can't join room"`) log lines, and whether a join attempt succeeded. -/
structure AutojoinResult where
  slept : List Nat
  permFailLogs : Nat
  joined : Bool
deriving DecidableEq, Repr

/-- The retry loop of `on_stripped_state_member` (`src/matrix_client.rs`
lines 22-41): `delay` starts at 2; while `room.join()` fails: log a retry
line, sleep `delay` seconds, double `delay`, and once the doubled `delay`
exceeds 3600 log `"Can't join room .."` once and break.  `join k` is the
outcome of the `k`-th join attempt.  The loop runs inside a spawned task and
returns normally on abandonment — it never exits the process or the worker
loop. -/
def autojoinAux (join : Nat → Bool) (k : Nat) (delay : Nat) (hd : 2 ≤ delay) :
    AutojoinResult :=
  if join k then { slept := [], permFailLogs := 0, joined := true }
  else if h : 3600 < 2 * delay then { slept := [delay], permFailLogs := 1, joined := false }
  else
    let r := autojoinAux join (k + 1) (2 * delay) (by omega)
    { slept := delay :: r.slept, permFailLogs := r.permFailLogs, joined := r.joined }
termination_by 3601 - delay
decreasing_by omega

/-- The whole loop, from its initial `delay = 2`. -/
def autojoin (join : Nat → Bool) : AutojoinResult := autojoinAux join 0 2 (by omega)

end matrix_client_root

lemma isPrefixOf_append_cases (p a s : Str) (h : p.isPrefixOf (a ++ s) = true) :
    p.isPrefixOf a = true ∨ a.isPrefixOf p = true := by
  induction a generalizing p with
  | nil => exact Or.inr (by simp [List.isPrefixOf])
  | cons d t ih =>
    cases p with
    | nil => exact Or.inl (by simp [List.isPrefixOf])
    | cons c p' =>
      simp only [List.cons_append, List.isPrefixOf, Bool.and_eq_true, beq_iff_eq] at h ⊢
      rcases h with ⟨rfl, h2⟩
      rcases ih p' h2 with h3 | h3
      · exact Or.inl ⟨rfl, h3⟩
      · exact Or.inr ⟨rfl, h3⟩

lemma isPrefixOf_self_append : ∀ (p s : Str), p.isPrefixOf (p ++ s) = true
  | [], _ => by simp [List.isPrefixOf]
  | c :: p, s => by simp [List.isPrefixOf, isPrefixOf_self_append p s]

lemma isPrefixOf_iff_exists (p : Str) : ∀ s : Str, p.isPrefixOf s = true ↔ ∃ t, s = p ++ t := by
  induction p with
  | nil => intro s; simp [List.isPrefixOf]
  | cons c p ih =>
    intro s
    cases s with
    | nil => simp [List.isPrefixOf]
    | cons d t =>
      simp only [List.isPrefixOf, Bool.and_eq_true, beq_iff_eq, ih t]
      constructor
      · rintro ⟨rfl, u, rfl⟩; exact ⟨u, rfl⟩
      · rintro ⟨u, hu⟩
        rw [List.cons_append] at hu
        cases hu
        exact ⟨rfl, u, rfl⟩

lemma occursIn_iff_exists (p : Str) : ∀ s : Str, occursIn p s = true ↔ ∃ x y, s = x ++ (p ++ y) := by
  intro s
  induction s with
  | nil =>
    simp only [occursIn, List.isEmpty_iff]
    constructor
    · rintro rfl; exact ⟨[], [], rfl⟩
    · rintro ⟨x, y, hxy⟩
      rcases List.append_eq_nil.mp hxy.symm with ⟨rfl, h2⟩
      exact (List.append_eq_nil.mp h2).1
  | cons c t ih =>
    simp only [occursIn, Bool.or_eq_true, ih, isPrefixOf_iff_exists]
    constructor
    · rintro (⟨u, hu⟩ | ⟨x, y, rfl⟩)
      · exact ⟨[], u, by simpa using hu⟩
      · exact ⟨c :: x, y, rfl⟩
    · rintro ⟨x, y, hxy⟩
      cases x with
      | nil => exact Or.inl ⟨y, by simpa using hxy⟩
      | cons d x' =>
        rw [List.cons_append] at hxy
        cases hxy
        exact Or.inr ⟨x', y, rfl⟩

lemma replaceGo_fuel : ∀ (m n : Nat) (p r s : Str), s.length ≤ m → s.length ≤ n →
    replaceGo m p r s = replaceGo n p r s := by
  intro m
  induction m with
  | zero =>
    intro n p r s hm _
    have hs : s = [] := List.eq_nil_of_length_eq_zero (Nat.le_zero.mp hm)
    subst hs
    cases n <;> simp [replaceGo]
  | succ m ih =>
    intro n p r s hm hn
    cases n with
    | zero =>
      have hs : s = [] := List.eq_nil_of_length_eq_zero (Nat.le_zero.mp hn)
      subst hs
      simp [replaceGo]
    | succ n =>
      cases s with
      | nil => simp [replaceGo]
      | cons c t =>
        simp only [replaceGo]
        by_cases hcond : (!p.isEmpty && p.isPrefixOf (c :: t)) = true
        · rw [if_pos hcond, if_pos hcond]
          have hp : 1 ≤ p.length := by
            cases p with
            | nil => simp at hcond
            | cons a b => simp
          have hlen : ((c :: t).drop p.length).length = t.length + 1 - p.length := by
            simp [List.length_drop]
          simp only [List.length_cons] at hm hn
          congr 1
          exact ih n p r _ (by omega) (by omega)
        · rw [if_neg hcond, if_neg hcond]
          simp only [List.length_cons] at hm hn
          congr 1
          exact ih n p r t (by omega) (by omega)

lemma replaceAll_cons_hit (p r : Str) (c : Char) (t : Str)
    (hp : p ≠ []) (h : p.isPrefixOf (c :: t) = true) :
    replaceAll p r (c :: t) = r ++ replaceAll p r ((c :: t).drop p.length) := by
  show replaceGo (t.length + 1) p r (c :: t) = _
  simp only [replaceGo]
  rw [if_pos]
  · congr 1
    have hp1 : 1 ≤ p.length := by
      cases p with
      | nil => exact absurd rfl hp
      | cons a b => simp
    exact replaceGo_fuel _ _ _ _ _ (by simp [List.length_drop]; omega) (Nat.le_refl _)
  · cases p with
    | nil => exact absurd rfl hp
    | cons a b => simp [h]

lemma replaceAll_cons_miss (p r : Str) (c : Char) (t : Str)
    (h : (!p.isEmpty && p.isPrefixOf (c :: t)) = false) :
    replaceAll p r (c :: t) = c :: replaceAll p r t := by
  show replaceGo (t.length + 1) p r (c :: t) = _
  simp only [replaceGo]
  rw [if_neg (by simp [h])]
  rfl

/-- Replacing `q` in `a ++ s` walks through a `q`-transparent literal `a`
untouched. -/
lemma replaceAll_skip_lit {q a : Str} (r : Str) (s : Str) (h : safeLitB q a = true) :
    replaceAll q r (a ++ s) = a ++ replaceAll q r s := by
  induction a with
  | nil => simp
  | cons c t ih =>
    simp only [safeLitB, Bool.and_eq_true, Bool.not_eq_true'] at h
    obtain ⟨⟨h1, h2⟩, h3⟩ := h
    have hmiss : q.isPrefixOf ((c :: t) ++ s) = false := by
      by_contra hc
      rw [Bool.not_eq_false] at hc
      rcases isPrefixOf_append_cases q (c :: t) s hc with h' | h'
      · rw [h2] at h'; exact Bool.false_ne_true h'
      · rw [h1] at h'; exact Bool.false_ne_true h'
    rw [List.cons_append, replaceAll_cons_miss _ _ _ _ (by rw [← List.cons_append, hmiss, Bool.and_false]), ih h3]
    rfl

/-- Replacing a `'<'`-headed pattern in `v ++ s` walks through a
`'<'`-free value `v` untouched. -/
lemma replaceAll_skip_val {q v : Str} (r : Str) (s : Str)
    (hq : q.head? = some '<') (hv : '<' ∉ v) :
    replaceAll q r (v ++ s) = v ++ replaceAll q r s := by
  induction v with
  | nil => simp
  | cons c t ih =>
    have hc : ¬(c = '<') := by
      intro h
      exact hv (h ▸ List.mem_cons_self c t)
    have hmiss : q.isPrefixOf (c :: (t ++ s)) = false := by
      cases q with
      | nil => simp at hq
      | cons a b =>
        have ha : a = '<' := by simpa using hq
        subst ha
        simp only [List.isPrefixOf, Bool.and_eq_false_iff, beq_eq_false_iff_ne, ne_eq]
        exact Or.inl (fun h => hc h.symm)
    rw [List.cons_append, replaceAll_cons_miss _ _ _ _ (by rw [hmiss, Bool.and_false]),
      ih (fun h => hv (List.mem_cons_of_mem c h))]
    rfl

/-- Replacing `q` at an occurrence sitting at the head of the string. -/
lemma replaceAll_hit {q : Str} (r : Str) (s : Str) (hq : q ≠ []) :
    replaceAll q r (q ++ s) = r ++ replaceAll q r s := by
  cases hq2 : q with
  | nil => exact absurd hq2 hq
  | cons c p =>
    rw [List.cons_append, replaceAll_cons_hit _ _ _ _ (by simp) (by rw [← List.cons_append]; exact isPrefixOf_self_append _ _)]
    congr 1
    have : (c :: (p ++ s)).drop (c :: p).length = s := by
      simp only [List.length_cons, List.drop_succ_cons]
      exact List.drop_left p s
    rw [this]

/-- If `q` does not occur in `s`, the replacement is the identity. -/
lemma replaceAll_of_not_occurs {q s : Str} (r : Str) (h : occursIn q s = false) :
    replaceAll q r s = s := by
  induction s with
  | nil => rfl
  | cons c t ih =>
    simp only [occursIn, Bool.or_eq_false_iff] at h
    rw [replaceAll_cons_miss _ _ _ _ (by rw [h.1, Bool.and_false]), ih h.2]

lemma occursIn_append_lit {q a : Str} (s : Str) (ha : safeLitB q a = true)
    (hs : occursIn q s = false) : occursIn q (a ++ s) = false := by
  induction a with
  | nil => simpa
  | cons c t ih =>
    simp only [safeLitB, Bool.and_eq_true, Bool.not_eq_true'] at ha
    obtain ⟨⟨h1, h2⟩, h3⟩ := ha
    have hmiss : q.isPrefixOf ((c :: t) ++ s) = false := by
      by_contra hc
      rw [Bool.not_eq_false] at hc
      rcases isPrefixOf_append_cases q (c :: t) s hc with h' | h'
      · rw [h2] at h'; exact Bool.false_ne_true h'
      · rw [h1] at h'; exact Bool.false_ne_true h'
    rw [List.cons_append]
    simp only [occursIn, Bool.or_eq_false_iff]
    exact ⟨by rw [← List.cons_append]; exact hmiss, ih h3⟩

lemma occursIn_append_val {q v : Str} (s : Str) (hq : q.head? = some '<')
    (hv : '<' ∉ v) (hs : occursIn q s = false) : occursIn q (v ++ s) = false := by
  induction v with
  | nil => simpa
  | cons c t ih =>
    have hc : ¬(c = '<') := by
      intro h
      exact hv (h ▸ List.mem_cons_self c t)
    have hmiss : q.isPrefixOf (c :: (t ++ s)) = false := by
      cases q with
      | nil => simp at hq
      | cons a b =>
        have ha : a = '<' := by simpa using hq
        subst ha
        simp only [List.isPrefixOf, Bool.and_eq_false_iff, beq_eq_false_iff_ne, ne_eq]
        exact Or.inl (fun h => hc h.symm)
    rw [List.cons_append]
    simp only [occursIn, Bool.or_eq_false_iff]
    exact ⟨hmiss, ih (fun h => hv (List.mem_cons_of_mem c h))⟩
lemma ne_IMGID : phIMGID ≠ [] := by decide
lemma hd_IMGID : phIMGID.head? = some ('<') := by decide
lemma ne_IMGURI : phIMGURI ≠ [] := by decide
lemma hd_IMGURI : phIMGURI.head? = some ('<') := by decide
lemma ne_CAM : phCAM ≠ [] := by decide
lemma hd_CAM : phCAM.head? = some ('<') := by decide
lemma ne_END : phEND ≠ [] := by decide
lemma hd_END : phEND.head? = some ('<') := by decide
lemma ne_TIME : phTIME ≠ [] := by decide
lemma hd_TIME : phTIME.head? = some ('<') := by decide
lemma ne_DET : phDET ≠ [] := by decide
lemma hd_DET : phDET.head? = some ('<') := by decide
lemma safe_IMGID_sU0 : safeLitB phIMGID sU0 = true := by decide
lemma safe_IMGID_sU1 : safeLitB phIMGID sU1 = true := by decide
lemma safe_IMGID_sU2 : safeLitB phIMGID sU2 = true := by decide
lemma safe_IMGID_sU3 : safeLitB phIMGID sU3 = true := by decide
lemma safe_IMGID_sU4 : safeLitB phIMGID sU4 = true := by decide
lemma safe_IMGID_sU5 : safeLitB phIMGID sU5 = true := by decide
lemma occ_IMGID_sU5 : occursIn phIMGID sU5 = false := by decide
lemma safe_CAM_sU0 : safeLitB phCAM sU0 = true := by decide
lemma safe_CAM_sU1 : safeLitB phCAM sU1 = true := by decide
lemma safe_CAM_sU2 : safeLitB phCAM sU2 = true := by decide
lemma safe_CAM_sU3 : safeLitB phCAM sU3 = true := by decide
lemma safe_CAM_sU4 : safeLitB phCAM sU4 = true := by decide
lemma safe_CAM_sU5 : safeLitB phCAM sU5 = true := by decide
lemma occ_CAM_sU5 : occursIn phCAM sU5 = false := by decide
lemma safe_END_sU0 : safeLitB phEND sU0 = true := by decide
lemma safe_END_sU1 : safeLitB phEND sU1 = true := by decide
lemma safe_END_sU2 : safeLitB phEND sU2 = true := by decide
lemma safe_END_sU3 : safeLitB phEND sU3 = true := by decide
lemma safe_END_sU4 : safeLitB phEND sU4 = true := by decide
lemma safe_END_sU5 : safeLitB phEND sU5 = true := by decide
lemma occ_END_sU5 : occursIn phEND sU5 = false := by decide
lemma safe_TIME_sU0 : safeLitB phTIME sU0 = true := by decide
lemma safe_TIME_sU1 : safeLitB phTIME sU1 = true := by decide
lemma safe_TIME_sU2 : safeLitB phTIME sU2 = true := by decide
lemma safe_TIME_sU3 : safeLitB phTIME sU3 = true := by decide
lemma safe_TIME_sU4 : safeLitB phTIME sU4 = true := by decide
lemma safe_TIME_sU5 : safeLitB phTIME sU5 = true := by decide
lemma occ_TIME_sU5 : occursIn phTIME sU5 = false := by decide
lemma safe_DET_sU0 : safeLitB phDET sU0 = true := by decide
lemma safe_DET_sU1 : safeLitB phDET sU1 = true := by decide
lemma safe_DET_sU2 : safeLitB phDET sU2 = true := by decide
lemma safe_DET_sU3 : safeLitB phDET sU3 = true := by decide
lemma safe_DET_sU4 : safeLitB phDET sU4 = true := by decide
lemma safe_DET_sU5 : safeLitB phDET sU5 = true := by decide
lemma occ_DET_sU5 : occursIn phDET sU5 = false := by decide
lemma safe_IMGURI_mA0 : safeLitB phIMGURI mA0 = true := by decide
lemma safe_IMGURI_mA1 : safeLitB phIMGURI mA1 = true := by decide
lemma safe_IMGURI_mA2 : safeLitB phIMGURI mA2 = true := by decide
lemma safe_IMGURI_mA3 : safeLitB phIMGURI mA3 = true := by decide
lemma safe_IMGURI_mA4 : safeLitB phIMGURI mA4 = true := by decide
lemma safe_IMGURI_mA5 : safeLitB phIMGURI mA5 = true := by decide
lemma safe_IMGURI_mA6 : safeLitB phIMGURI mA6 = true := by decide
lemma safe_IMGURI_mA7 : safeLitB phIMGURI mA7 = true := by decide
lemma occ_IMGURI_mA7 : occursIn phIMGURI mA7 = false := by decide
lemma safe_CAM_mA0 : safeLitB phCAM mA0 = true := by decide
lemma safe_CAM_mA1 : safeLitB phCAM mA1 = true := by decide
lemma safe_CAM_mA2 : safeLitB phCAM mA2 = true := by decide
lemma safe_CAM_mA3 : safeLitB phCAM mA3 = true := by decide
lemma safe_CAM_mA4 : safeLitB phCAM mA4 = true := by decide
lemma safe_CAM_mA5 : safeLitB phCAM mA5 = true := by decide
lemma safe_CAM_mA6 : safeLitB phCAM mA6 = true := by decide
lemma safe_CAM_mA7 : safeLitB phCAM mA7 = true := by decide
lemma occ_CAM_mA7 : occursIn phCAM mA7 = false := by decide
lemma safe_TIME_mA0 : safeLitB phTIME mA0 = true := by decide
lemma safe_TIME_mA1 : safeLitB phTIME mA1 = true := by decide
lemma safe_TIME_mA2 : safeLitB phTIME mA2 = true := by decide
lemma safe_TIME_mA3 : safeLitB phTIME mA3 = true := by decide
lemma safe_TIME_mA4 : safeLitB phTIME mA4 = true := by decide
lemma safe_TIME_mA5 : safeLitB phTIME mA5 = true := by decide
lemma safe_TIME_mA6 : safeLitB phTIME mA6 = true := by decide
lemma safe_TIME_mA7 : safeLitB phTIME mA7 = true := by decide
lemma occ_TIME_mA7 : occursIn phTIME mA7 = false := by decide
lemma safe_DET_mA0 : safeLitB phDET mA0 = true := by decide
lemma safe_DET_mA1 : safeLitB phDET mA1 = true := by decide
lemma safe_DET_mA2 : safeLitB phDET mA2 = true := by decide
lemma safe_DET_mA3 : safeLitB phDET mA3 = true := by decide
lemma safe_DET_mA4 : safeLitB phDET mA4 = true := by decide
lemma safe_DET_mA5 : safeLitB phDET mA5 = true := by decide
lemma safe_DET_mA6 : safeLitB phDET mA6 = true := by decide
lemma safe_DET_mA7 : safeLitB phDET mA7 = true := by decide
lemma occ_DET_mA7 : occursIn phDET mA7 = false := by decide
lemma safe_END_mA0 : safeLitB phEND mA0 = true := by decide
lemma safe_END_mA1 : safeLitB phEND mA1 = true := by decide
lemma safe_END_mA2 : safeLitB phEND mA2 = true := by decide
lemma safe_END_mA3 : safeLitB phEND mA3 = true := by decide
lemma safe_END_mA4 : safeLitB phEND mA4 = true := by decide
lemma safe_END_mA5 : safeLitB phEND mA5 = true := by decide
lemma safe_END_mA6 : safeLitB phEND mA6 = true := by decide
lemma safe_END_mA7 : safeLitB phEND mA7 = true := by decide
lemma occ_END_mA7 : occursIn phEND mA7 = false := by decide
lemma occ_IMGID_sR1 : occursIn phIMGID sR1 = false := by decide
lemma occ_CAM_sR2 : occursIn phCAM sR2 = false := by decide
lemma occ_END_sR3 : occursIn phEND sR3 = false := by decide
lemma occ_TIME_sR4 : occursIn phTIME sR4 = false := by decide
lemma slack_split : SLACK_TEMPLATE = sU0 ++ (phIMGID ++ sR1) := by decide
lemma matrix_split1 : MATRIX_TEMPLATE = mW ++ (phIMGURI ++ mA7) := by decide
lemma safe_IMGURI_mW : safeLitB phIMGURI mW = true := by decide
lemma safe_CAM_mB1 : safeLitB phCAM mB1 = true := by decide
lemma safe_CAM_mB2 : safeLitB phCAM mB2 = true := by decide
lemma safe_TIME_mC1 : safeLitB phTIME mC1 = true := by decide
lemma safe_TIME_mC2 : safeLitB phTIME mC2 = true := by decide

/-- `'<'` does not occur in the Slack deep-link URL when it occurs in none of
its inputs. -/
lemma slack_endpoint_url_lt_free (ep : Str) (m : BvrChirpMessage) (hep : '<' ∉ ep)
    (hdb : '<' ∉ m.db_id) (hcam : '<' ∉ m.camera_name) :
    '<' ∉ slack_client.endpoint_url ep m := by
  simp only [slack_client.endpoint_url, List.mem_append]
  intro h
  rcases h with h | h | h | h | h | h
  · exact hep h
  · exact absurd h (by decide)
  · exact hdb h
  · exact absurd h (by decide)
  · exact hcam h
  · exact absurd h (by decide)

/-- `'<'` does not occur in the Matrix deep-link URL when it occurs in none of
its inputs. -/
lemma matrix_endpoint_url_lt_free (ep : Str) (m : BvrChirpMessage) (hep : '<' ∉ ep)
    (hdb : '<' ∉ m.db_id) (hcam : '<' ∉ m.camera_name) :
    '<' ∉ matrix_client.endpoint_url ep m := by
  simp only [matrix_client.endpoint_url, List.mem_append]
  intro h
  rcases h with h | h | h | h | h | h
  · exact hep h
  · exact absurd h (by decide)
  · exact hdb h
  · exact absurd h (by decide)
  · exact hcam h
  · exact absurd h (by decide)

/-- The rendered Slack message as an explicit interleaving of template
literals and substituted values, provided no substituted value contains `'<'`
(so no replacement can match starting inside an already substituted value). -/
lemma slack_shape (alert_endpoint file_id : Str) (m : BvrChirpMessage)
    (hid : '<' ∉ file_id) (hcam : '<' ∉ m.camera_name)
    (hurl : '<' ∉ slack_client.endpoint_url alert_endpoint m)
    (htime : '<' ∉ m.time) :
    slack_client.build_message alert_endpoint file_id m =
      sU0 ++ (file_id ++ (sU1 ++ (m.camera_name ++ (sU2 ++ (slack_client.endpoint_url alert_endpoint m ++ (sU3 ++ (m.time ++ (sU4 ++ (m.detections ++ sU5))))))))) := by
  have e1 : replaceAll phIMGID file_id SLACK_TEMPLATE = sU0 ++ (file_id ++ sR1) := by
    rw [slack_split, replaceAll_skip_lit _ _ safe_IMGID_sU0, replaceAll_hit _ _ ne_IMGID,
      replaceAll_of_not_occurs _ occ_IMGID_sR1]
  have e2 : replaceAll phCAM m.camera_name (sU0 ++ (file_id ++ sR1)) =
      sU0 ++ (file_id ++ (sU1 ++ (m.camera_name ++ sR2))) := by
    rw [replaceAll_skip_lit _ _ safe_CAM_sU0, replaceAll_skip_val _ _ hd_CAM hid]
    simp only [sR1]
    rw [replaceAll_skip_lit _ _ safe_CAM_sU1, replaceAll_hit _ _ ne_CAM,
      replaceAll_of_not_occurs _ occ_CAM_sR2]
  have e3 : replaceAll phEND (slack_client.endpoint_url alert_endpoint m)
        (sU0 ++ (file_id ++ (sU1 ++ (m.camera_name ++ sR2)))) =
      sU0 ++ (file_id ++ (sU1 ++ (m.camera_name ++ (sU2 ++ (slack_client.endpoint_url alert_endpoint m ++ sR3))))) := by
    rw [replaceAll_skip_lit _ _ safe_END_sU0, replaceAll_skip_val _ _ hd_END hid,
      replaceAll_skip_lit _ _ safe_END_sU1, replaceAll_skip_val _ _ hd_END hcam]
    simp only [sR2]
    rw [replaceAll_skip_lit _ _ safe_END_sU2, replaceAll_hit _ _ ne_END,
      replaceAll_of_not_occurs _ occ_END_sR3]
  have e4 : replaceAll phTIME m.time
        (sU0 ++ (file_id ++ (sU1 ++ (m.camera_name ++ (sU2 ++ (slack_client.endpoint_url alert_endpoint m ++ sR3)))))) =
      sU0 ++ (file_id ++ (sU1 ++ (m.camera_name ++ (sU2 ++ (slack_client.endpoint_url alert_endpoint m ++ (sU3 ++ (m.time ++ sR4))))))) := by
    rw [replaceAll_skip_lit _ _ safe_TIME_sU0, replaceAll_skip_val _ _ hd_TIME hid,
      replaceAll_skip_lit _ _ safe_TIME_sU1, replaceAll_skip_val _ _ hd_TIME hcam,
      replaceAll_skip_lit _ _ safe_TIME_sU2, replaceAll_skip_val _ _ hd_TIME hurl]
    simp only [sR3]
    rw [replaceAll_skip_lit _ _ safe_TIME_sU3, replaceAll_hit _ _ ne_TIME,
      replaceAll_of_not_occurs _ occ_TIME_sR4]
  have e5 : replaceAll phDET m.detections
        (sU0 ++ (file_id ++ (sU1 ++ (m.camera_name ++ (sU2 ++ (slack_client.endpoint_url alert_endpoint m ++ (sU3 ++ (m.time ++ sR4)))))))) =
      sU0 ++ (file_id ++ (sU1 ++ (m.camera_name ++ (sU2 ++ (slack_client.endpoint_url alert_endpoint m ++ (sU3 ++ (m.time ++ (sU4 ++ (m.detections ++ sU5))))))))) := by
    rw [replaceAll_skip_lit _ _ safe_DET_sU0, replaceAll_skip_val _ _ hd_DET hid,
      replaceAll_skip_lit _ _ safe_DET_sU1, replaceAll_skip_val _ _ hd_DET hcam,
      replaceAll_skip_lit _ _ safe_DET_sU2, replaceAll_skip_val _ _ hd_DET hurl,
      replaceAll_skip_lit _ _ safe_DET_sU3, replaceAll_skip_val _ _ hd_DET htime]
    simp only [sR4]
    rw [replaceAll_skip_lit _ _ safe_DET_sU4, replaceAll_hit _ _ ne_DET,
      replaceAll_of_not_occurs _ occ_DET_sU5]
  simp only [slack_client.build_message]
  rw [e1, e2, e3, e4, e5]

/-- The first four replacement steps of the Matrix renderer (everything except
the final `<ENDPOINT_URL>` step) as an explicit interleaving of template
literals and substituted values. -/
lemma matrix_shape4 (content_uri : Str) (m : BvrChirpMessage)
    (huri : '<' ∉ content_uri) (hcam : '<' ∉ m.camera_name)
    (htime : '<' ∉ m.time) :
    matrix_client.build_message_without_endpoint_step content_uri m =
      mA0 ++ (m.camera_name ++ (mA1 ++ (m.detections ++ (mA2 ++ (m.time ++ (mA3 ++ (m.camera_name ++ (mA4 ++ (m.detections ++ (mA5 ++ (m.time ++ (mA6 ++ (content_uri ++ mA7))))))))))))) := by
  have e1 : replaceAll phIMGURI content_uri MATRIX_TEMPLATE = mW ++ (content_uri ++ mA7) := by
    rw [matrix_split1, replaceAll_skip_lit _ _ safe_IMGURI_mW, replaceAll_hit _ _ ne_IMGURI,
      replaceAll_of_not_occurs _ occ_IMGURI_mA7]
  have e2 : replaceAll phCAM m.camera_name (mW ++ (content_uri ++ mA7)) =
      mA0 ++ (m.camera_name ++ (mB1 ++ (m.camera_name ++ (mB2 ++ (content_uri ++ mA7))))) := by
    simp only [mW, List.append_assoc]
    rw [replaceAll_skip_lit _ _ safe_CAM_mA0, replaceAll_hit _ _ ne_CAM,
      replaceAll_skip_lit _ _ safe_CAM_mB1, replaceAll_hit _ _ ne_CAM,
      replaceAll_skip_lit _ _ safe_CAM_mB2, replaceAll_skip_val _ _ hd_CAM huri,
      replaceAll_of_not_occurs _ occ_CAM_mA7]
  have e3 : replaceAll phTIME m.time
        (mA0 ++ (m.camera_name ++ (mB1 ++ (m.camera_name ++ (mB2 ++ (content_uri ++ mA7)))))) =
      mA0 ++ (m.camera_name ++ (mC1 ++ (m.time ++ (mA3 ++ (m.camera_name ++ (mC2 ++ (m.time ++ (mA6 ++ (content_uri ++ mA7))))))))) := by
    simp only [mB1, mB2, List.append_assoc]
    rw [replaceAll_skip_lit _ _ safe_TIME_mA0, replaceAll_skip_val _ _ hd_TIME hcam,
      replaceAll_skip_lit _ _ safe_TIME_mC1, replaceAll_hit _ _ ne_TIME,
      replaceAll_skip_lit _ _ safe_TIME_mA3, replaceAll_skip_val _ _ hd_TIME hcam,
      replaceAll_skip_lit _ _ safe_TIME_mC2, replaceAll_hit _ _ ne_TIME,
      replaceAll_skip_lit _ _ safe_TIME_mA6, replaceAll_skip_val _ _ hd_TIME huri,
      replaceAll_of_not_occurs _ occ_TIME_mA7]
  have e4 : replaceAll phDET m.detections
        (mA0 ++ (m.camera_name ++ (mC1 ++ (m.time ++ (mA3 ++ (m.camera_name ++ (mC2 ++ (m.time ++ (mA6 ++ (content_uri ++ mA7)))))))))) =
      mA0 ++ (m.camera_name ++ (mA1 ++ (m.detections ++ (mA2 ++ (m.time ++ (mA3 ++ (m.camera_name ++ (mA4 ++ (m.detections ++ (mA5 ++ (m.time ++ (mA6 ++ (content_uri ++ mA7))))))))))))) := by
    simp only [mC1, mC2, List.append_assoc]
    rw [replaceAll_skip_lit _ _ safe_DET_mA0, replaceAll_skip_val _ _ hd_DET hcam,
      replaceAll_skip_lit _ _ safe_DET_mA1, replaceAll_hit _ _ ne_DET,
      replaceAll_skip_lit _ _ safe_DET_mA2, replaceAll_skip_val _ _ hd_DET htime,
      replaceAll_skip_lit _ _ safe_DET_mA3, replaceAll_skip_val _ _ hd_DET hcam,
      replaceAll_skip_lit _ _ safe_DET_mA4, replaceAll_hit _ _ ne_DET,
      replaceAll_skip_lit _ _ safe_DET_mA5, replaceAll_skip_val _ _ hd_DET htime,
      replaceAll_skip_lit _ _ safe_DET_mA6, replaceAll_skip_val _ _ hd_DET huri,
      replaceAll_of_not_occurs _ occ_DET_mA7]
  simp only [matrix_client.build_message_without_endpoint_step]
  rw [e1, e2, e3, e4]

/-- The fully rendered Matrix message, under the same `'<'`-freeness
hypotheses (plus one for detections, which the final `<ENDPOINT_URL>` scan
walks over).  The shape is identical to `matrix_shape4`: the final step
replaces nothing. -/
lemma matrix_shape (content_uri alert_endpoint : Str) (m : BvrChirpMessage)
    (huri : '<' ∉ content_uri) (hcam : '<' ∉ m.camera_name)
    (htime : '<' ∉ m.time) (hdet : '<' ∉ m.detections) :
    matrix_client.build_message content_uri alert_endpoint m =
      mA0 ++ (m.camera_name ++ (mA1 ++ (m.detections ++ (mA2 ++ (m.time ++ (mA3 ++ (m.camera_name ++ (mA4 ++ (m.detections ++ (mA5 ++ (m.time ++ (mA6 ++ (content_uri ++ mA7))))))))))))) := by
  have e4 := matrix_shape4 content_uri m huri hcam htime
  have e5 : replaceAll phEND (matrix_client.endpoint_url alert_endpoint m)
        (mA0 ++ (m.camera_name ++ (mA1 ++ (m.detections ++ (mA2 ++ (m.time ++ (mA3 ++ (m.camera_name ++ (mA4 ++ (m.detections ++ (mA5 ++ (m.time ++ (mA6 ++ (content_uri ++ mA7)))))))))))))) =
      mA0 ++ (m.camera_name ++ (mA1 ++ (m.detections ++ (mA2 ++ (m.time ++ (mA3 ++ (m.camera_name ++ (mA4 ++ (m.detections ++ (mA5 ++ (m.time ++ (mA6 ++ (content_uri ++ mA7))))))))))))) := by
    rw [replaceAll_skip_lit _ _ safe_END_mA0, replaceAll_skip_val _ _ hd_END hcam,
      replaceAll_skip_lit _ _ safe_END_mA1, replaceAll_skip_val _ _ hd_END hdet,
      replaceAll_skip_lit _ _ safe_END_mA2, replaceAll_skip_val _ _ hd_END htime,
      replaceAll_skip_lit _ _ safe_END_mA3, replaceAll_skip_val _ _ hd_END hcam,
      replaceAll_skip_lit _ _ safe_END_mA4, replaceAll_skip_val _ _ hd_END hdet,
      replaceAll_skip_lit _ _ safe_END_mA5, replaceAll_skip_val _ _ hd_END htime,
      replaceAll_skip_lit _ _ safe_END_mA6, replaceAll_skip_val _ _ hd_END huri,
      replaceAll_of_not_occurs _ occ_END_mA7]
  have hb : matrix_client.build_message content_uri alert_endpoint m =
      replaceAll phEND (matrix_client.endpoint_url alert_endpoint m)
        (matrix_client.build_message_without_endpoint_step content_uri m) := rfl
  rw [hb, e4, e5]

/-- No placeholder token survives in a rendered Slack message when the
substituted values are `'<'`-free. -/
lemma slack_token_free (alert_endpoint file_id : Str) (m : BvrChirpMessage)
    (hid : '<' ∉ file_id) (hcam : '<' ∉ m.camera_name) (hdb : '<' ∉ m.db_id)
    (hep : '<' ∉ alert_endpoint) (htime : '<' ∉ m.time) (hdet : '<' ∉ m.detections) :
    ∀ q ∈ slackPlaceholders, occursIn q (slack_client.build_message alert_endpoint file_id m) = false := by
  intro q hq
  have hurl := slack_endpoint_url_lt_free alert_endpoint m hep hdb hcam
  rw [slack_shape alert_endpoint file_id m hid hcam hurl htime]
  simp only [slackPlaceholders, List.mem_cons, List.not_mem_nil, or_false] at hq
  rcases hq with rfl | rfl | rfl | rfl | rfl
  · exact occursIn_append_lit _ safe_IMGID_sU0 (occursIn_append_val _ hd_IMGID hid
      (occursIn_append_lit _ safe_IMGID_sU1 (occursIn_append_val _ hd_IMGID hcam
      (occursIn_append_lit _ safe_IMGID_sU2 (occursIn_append_val _ hd_IMGID hurl
      (occursIn_append_lit _ safe_IMGID_sU3 (occursIn_append_val _ hd_IMGID htime
      (occursIn_append_lit _ safe_IMGID_sU4 (occursIn_append_val _ hd_IMGID hdet
      occ_IMGID_sU5)))))))))
  · exact occursIn_append_lit _ safe_CAM_sU0 (occursIn_append_val _ hd_CAM hid
      (occursIn_append_lit _ safe_CAM_sU1 (occursIn_append_val _ hd_CAM hcam
      (occursIn_append_lit _ safe_CAM_sU2 (occursIn_append_val _ hd_CAM hurl
      (occursIn_append_lit _ safe_CAM_sU3 (occursIn_append_val _ hd_CAM htime
      (occursIn_append_lit _ safe_CAM_sU4 (occursIn_append_val _ hd_CAM hdet
      occ_CAM_sU5)))))))))
  · exact occursIn_append_lit _ safe_END_sU0 (occursIn_append_val _ hd_END hid
      (occursIn_append_lit _ safe_END_sU1 (occursIn_append_val _ hd_END hcam
      (occursIn_append_lit _ safe_END_sU2 (occursIn_append_val _ hd_END hurl
      (occursIn_append_lit _ safe_END_sU3 (occursIn_append_val _ hd_END htime
      (occursIn_append_lit _ safe_END_sU4 (occursIn_append_val _ hd_END hdet
      occ_END_sU5)))))))))
  · exact occursIn_append_lit _ safe_TIME_sU0 (occursIn_append_val _ hd_TIME hid
      (occursIn_append_lit _ safe_TIME_sU1 (occursIn_append_val _ hd_TIME hcam
      (occursIn_append_lit _ safe_TIME_sU2 (occursIn_append_val _ hd_TIME hurl
      (occursIn_append_lit _ safe_TIME_sU3 (occursIn_append_val _ hd_TIME htime
      (occursIn_append_lit _ safe_TIME_sU4 (occursIn_append_val _ hd_TIME hdet
      occ_TIME_sU5)))))))))
  · exact occursIn_append_lit _ safe_DET_sU0 (occursIn_append_val _ hd_DET hid
      (occursIn_append_lit _ safe_DET_sU1 (occursIn_append_val _ hd_DET hcam
      (occursIn_append_lit _ safe_DET_sU2 (occursIn_append_val _ hd_DET hurl
      (occursIn_append_lit _ safe_DET_sU3 (occursIn_append_val _ hd_DET htime
      (occursIn_append_lit _ safe_DET_sU4 (occursIn_append_val _ hd_DET hdet
      occ_DET_sU5)))))))))

/-- No placeholder token survives in a rendered Matrix message when the
substituted values are `'<'`-free. -/
lemma matrix_token_free (content_uri alert_endpoint : Str) (m : BvrChirpMessage)
    (huri : '<' ∉ content_uri) (hcam : '<' ∉ m.camera_name)
    (htime : '<' ∉ m.time) (hdet : '<' ∉ m.detections) :
    ∀ q ∈ matrixPlaceholders, occursIn q (matrix_client.build_message content_uri alert_endpoint m) = false := by
  intro q hq
  rw [matrix_shape content_uri alert_endpoint m huri hcam htime hdet]
  simp only [matrixPlaceholders, List.mem_cons, List.not_mem_nil, or_false] at hq
  rcases hq with rfl | rfl | rfl | rfl | rfl
  · exact occursIn_append_lit _ safe_IMGURI_mA0 (occursIn_append_val _ hd_IMGURI hcam
      (occursIn_append_lit _ safe_IMGURI_mA1 (occursIn_append_val _ hd_IMGURI hdet
      (occursIn_append_lit _ safe_IMGURI_mA2 (occursIn_append_val _ hd_IMGURI htime
      (occursIn_append_lit _ safe_IMGURI_mA3 (occursIn_append_val _ hd_IMGURI hcam
      (occursIn_append_lit _ safe_IMGURI_mA4 (occursIn_append_val _ hd_IMGURI hdet
      (occursIn_append_lit _ safe_IMGURI_mA5 (occursIn_append_val _ hd_IMGURI htime
      (occursIn_append_lit _ safe_IMGURI_mA6 (occursIn_append_val _ hd_IMGURI huri
      occ_IMGURI_mA7)))))))))))))
  · exact occursIn_append_lit _ safe_CAM_mA0 (occursIn_append_val _ hd_CAM hcam
      (occursIn_append_lit _ safe_CAM_mA1 (occursIn_append_val _ hd_CAM hdet
      (occursIn_append_lit _ safe_CAM_mA2 (occursIn_append_val _ hd_CAM htime
      (occursIn_append_lit _ safe_CAM_mA3 (occursIn_append_val _ hd_CAM hcam
      (occursIn_append_lit _ safe_CAM_mA4 (occursIn_append_val _ hd_CAM hdet
      (occursIn_append_lit _ safe_CAM_mA5 (occursIn_append_val _ hd_CAM htime
      (occursIn_append_lit _ safe_CAM_mA6 (occursIn_append_val _ hd_CAM huri
      occ_CAM_mA7)))))))))))))
  · exact occursIn_append_lit _ safe_TIME_mA0 (occursIn_append_val _ hd_TIME hcam
      (occursIn_append_lit _ safe_TIME_mA1 (occursIn_append_val _ hd_TIME hdet
      (occursIn_append_lit _ safe_TIME_mA2 (occursIn_append_val _ hd_TIME htime
      (occursIn_append_lit _ safe_TIME_mA3 (occursIn_append_val _ hd_TIME hcam
      (occursIn_append_lit _ safe_TIME_mA4 (occursIn_append_val _ hd_TIME hdet
      (occursIn_append_lit _ safe_TIME_mA5 (occursIn_append_val _ hd_TIME htime
      (occursIn_append_lit _ safe_TIME_mA6 (occursIn_append_val _ hd_TIME huri
      occ_TIME_mA7)))))))))))))
  · exact occursIn_append_lit _ safe_DET_mA0 (occursIn_append_val _ hd_DET hcam
      (occursIn_append_lit _ safe_DET_mA1 (occursIn_append_val _ hd_DET hdet
      (occursIn_append_lit _ safe_DET_mA2 (occursIn_append_val _ hd_DET htime
      (occursIn_append_lit _ safe_DET_mA3 (occursIn_append_val _ hd_DET hcam
      (occursIn_append_lit _ safe_DET_mA4 (occursIn_append_val _ hd_DET hdet
      (occursIn_append_lit _ safe_DET_mA5 (occursIn_append_val _ hd_DET htime
      (occursIn_append_lit _ safe_DET_mA6 (occursIn_append_val _ hd_DET huri
      occ_DET_mA7)))))))))))))
  · exact occursIn_append_lit _ safe_END_mA0 (occursIn_append_val _ hd_END hcam
      (occursIn_append_lit _ safe_END_mA1 (occursIn_append_val _ hd_END hdet
      (occursIn_append_lit _ safe_END_mA2 (occursIn_append_val _ hd_END htime
      (occursIn_append_lit _ safe_END_mA3 (occursIn_append_val _ hd_END hcam
      (occursIn_append_lit _ safe_END_mA4 (occursIn_append_val _ hd_END hdet
      (occursIn_append_lit _ safe_END_mA5 (occursIn_append_val _ hd_END htime
      (occursIn_append_lit _ safe_END_mA6 (occursIn_append_val _ hd_END huri
      occ_END_mA7)))))))))))))

/-- Re-rendering an already rendered Slack message is the identity (all
placeholders are gone, so every replacement step matches nothing). -/
lemma slack_rerender (alert_endpoint file_id : Str) (m : BvrChirpMessage)
    (hid : '<' ∉ file_id) (hcam : '<' ∉ m.camera_name) (hdb : '<' ∉ m.db_id)
    (hep : '<' ∉ alert_endpoint) (htime : '<' ∉ m.time) (hdet : '<' ∉ m.detections) :
    slack_client.render (slack_client.build_message alert_endpoint file_id m) alert_endpoint file_id m =
      slack_client.build_message alert_endpoint file_id m := by
  have h := slack_token_free alert_endpoint file_id m hid hcam hdb hep htime hdet
  have h1 := h phIMGID (by simp [slackPlaceholders])
  have h2 := h phCAM (by simp [slackPlaceholders])
  have h3 := h phEND (by simp [slackPlaceholders])
  have h4 := h phTIME (by simp [slackPlaceholders])
  have h5 := h phDET (by simp [slackPlaceholders])
  simp only [slack_client.render]
  rw [replaceAll_of_not_occurs _ h1, replaceAll_of_not_occurs _ h2,
    replaceAll_of_not_occurs _ h3, replaceAll_of_not_occurs _ h4,
    replaceAll_of_not_occurs _ h5]

/-- Re-rendering an already rendered Matrix message is the identity. -/
lemma matrix_rerender (content_uri alert_endpoint : Str) (m : BvrChirpMessage)
    (huri : '<' ∉ content_uri) (hcam : '<' ∉ m.camera_name)
    (htime : '<' ∉ m.time) (hdet : '<' ∉ m.detections) :
    matrix_client.render (matrix_client.build_message content_uri alert_endpoint m) content_uri alert_endpoint m =
      matrix_client.build_message content_uri alert_endpoint m := by
  have h := matrix_token_free content_uri alert_endpoint m huri hcam htime hdet
  have h1 := h phIMGURI (by simp [matrixPlaceholders])
  have h2 := h phCAM (by simp [matrixPlaceholders])
  have h3 := h phTIME (by simp [matrixPlaceholders])
  have h4 := h phDET (by simp [matrixPlaceholders])
  have h5 := h phEND (by simp [matrixPlaceholders])
  simp only [matrix_client.render]
  rw [replaceAll_of_not_occurs _ h1, replaceAll_of_not_occurs _ h2,
    replaceAll_of_not_occurs _ h3, replaceAll_of_not_occurs _ h4,
    replaceAll_of_not_occurs _ h5]

/-- C4 (amended): for every alert whose substituted values (uploaded file
id / content URI, camera name, db id, time, detections) and endpoint base
contain no `'<'` — i.e. no placeholder syntax — rendering the Slack and
Matrix templates with the complete substitution set yields output containing
zero remaining placeholder tokens, and applying the same rendering function
again to that output with the same substitutions returns it unchanged. -/
theorem claim_C4_amended (alert_endpoint file_id content_uri : Str) (m : BvrChirpMessage)
    (hid : '<' ∉ file_id) (huri : '<' ∉ content_uri) (hcam : '<' ∉ m.camera_name)
    (hdb : '<' ∉ m.db_id) (hep : '<' ∉ alert_endpoint) (htime : '<' ∉ m.time)
    (hdet : '<' ∉ m.detections) :
    (∀ q ∈ slackPlaceholders, occursIn q (slack_client.build_message alert_endpoint file_id m) = false) ∧
    slack_client.render (slack_client.build_message alert_endpoint file_id m) alert_endpoint file_id m =
      slack_client.build_message alert_endpoint file_id m ∧
    (∀ q ∈ matrixPlaceholders, occursIn q (matrix_client.build_message content_uri alert_endpoint m) = false) ∧
    matrix_client.render (matrix_client.build_message content_uri alert_endpoint m) content_uri alert_endpoint m =
      matrix_client.build_message content_uri alert_endpoint m :=
  ⟨slack_token_free alert_endpoint file_id m hid hcam hdb hep htime hdet,
   slack_rerender alert_endpoint file_id m hid hcam hdb hep htime hdet,
   matrix_token_free content_uri alert_endpoint m huri hcam htime hdet,
   matrix_rerender content_uri alert_endpoint m huri hcam htime hdet⟩

/-- C4 witness: the amended theorem instantiated at a concrete alert. -/
theorem claim_C4_witness :
    ('<' ∉ ("F1").data ∧ '<' ∉ ("mxc://u").data ∧ '<' ∉ ("cam").data ∧
     '<' ∉ ("42").data ∧ '<' ∉ ("http://e").data ∧ '<' ∉ ("t0").data ∧
     '<' ∉ ("person").data) ∧
    ((∀ q ∈ slackPlaceholders, occursIn q (slack_client.build_message ("http://e").data ("F1").data
        (BvrChirpMessage.new ("1").data ("cam").data ("person").data ("42").data ("t0").data [])) = false) ∧
     slack_client.render (slack_client.build_message ("http://e").data ("F1").data
        (BvrChirpMessage.new ("1").data ("cam").data ("person").data ("42").data ("t0").data []))
        ("http://e").data ("F1").data
        (BvrChirpMessage.new ("1").data ("cam").data ("person").data ("42").data ("t0").data []) =
      slack_client.build_message ("http://e").data ("F1").data
        (BvrChirpMessage.new ("1").data ("cam").data ("person").data ("42").data ("t0").data []) ∧
     (∀ q ∈ matrixPlaceholders, occursIn q (matrix_client.build_message ("mxc://u").data ("http://e").data
        (BvrChirpMessage.new ("1").data ("cam").data ("person").data ("42").data ("t0").data [])) = false) ∧
     matrix_client.render (matrix_client.build_message ("mxc://u").data ("http://e").data
        (BvrChirpMessage.new ("1").data ("cam").data ("person").data ("42").data ("t0").data []))
        ("mxc://u").data ("http://e").data
        (BvrChirpMessage.new ("1").data ("cam").data ("person").data ("42").data ("t0").data []) =
      matrix_client.build_message ("mxc://u").data ("http://e").data
        (BvrChirpMessage.new ("1").data ("cam").data ("person").data ("42").data ("t0").data [])) :=
  ⟨by decide,
   claim_C4_amended ("http://e").data ("F1").data ("mxc://u").data
     (BvrChirpMessage.new ("1").data ("cam").data ("person").data ("42").data ("t0").data [])
     (by decide) (by decide) (by decide) (by decide) (by decide) (by decide) (by decide)⟩

/-- C4 counterexample: the claim as stated (for every alert) is false.  With
`detections = "<TIME>"` the Slack renderer leaves a `<TIME>` placeholder
token in its output (the `<TIME>` pass runs before the `<DETECTIONS>` pass),
and re-rendering that output with the same substitutions changes it. -/
theorem claim_C4_counterexample :
    occursIn phTIME (slack_client.build_message ("http://e").data ("F1").data
      (BvrChirpMessage.new ("1").data ("cam").data ("<TIME>").data ("42").data ("t0").data [])) = true ∧
    slack_client.render (slack_client.build_message ("http://e").data ("F1").data
        (BvrChirpMessage.new ("1").data ("cam").data ("<TIME>").data ("42").data ("t0").data []))
        ("http://e").data ("F1").data
        (BvrChirpMessage.new ("1").data ("cam").data ("<TIME>").data ("42").data ("t0").data []) ≠
      slack_client.build_message ("http://e").data ("F1").data
        (BvrChirpMessage.new ("1").data ("cam").data ("<TIME>").data ("42").data ("t0").data []) := by
  constructor
  · decide
  · decide

/-- C9: placeholder substitution in `build_message` is sequential, not
simultaneous.  For the alert with `camera_name = "<TIME>"` and
`time = "TT"`, the rendered Slack output contains
`"Detection on TT camera"` — the camera value's `<TIME>` token was replaced
by the later time substitution — and does not contain
`"Detection on <TIME> camera"`, i.e. the camera field value is not carried
verbatim. -/
theorem claim_C9 :
    occursIn ("Detection on TT camera").data
      (slack_client.build_message ("http://e").data ("F1").data
        (BvrChirpMessage.new ("1").data ("<TIME>").data ("person").data ("42").data ("TT").data [])) = true ∧
    occursIn ("Detection on <TIME> camera").data
      (slack_client.build_message ("http://e").data ("F1").data
        (BvrChirpMessage.new ("1").data ("<TIME>").data ("person").data ("42").data ("TT").data [])) = false := by
  constructor
  · decide
  · decide

/-- C10 (amended): `MATRIX_TEMPLATE` contains no `<ENDPOINT_URL>` placeholder,
and for every alert whose substituted values contain no `'<'`, the
`<ENDPOINT_URL>` replacement step of the Matrix `build_message` is an
identity: the rendered message equals the render with that step removed (so
the renderer itself never inserts the deep-link URL). -/
theorem claim_C10_amended (content_uri alert_endpoint : Str) (m : BvrChirpMessage)
    (huri : '<' ∉ content_uri) (hcam : '<' ∉ m.camera_name)
    (htime : '<' ∉ m.time) (hdet : '<' ∉ m.detections) :
    occursIn phEND MATRIX_TEMPLATE = false ∧
    matrix_client.build_message content_uri alert_endpoint m =
      matrix_client.build_message_without_endpoint_step content_uri m :=
  ⟨by decide, by
    rw [matrix_shape content_uri alert_endpoint m huri hcam htime hdet,
      matrix_shape4 content_uri m huri hcam htime]⟩

/-- C10 witness: the amended theorem at a concrete alert. -/
theorem claim_C10_witness :
    ('<' ∉ ("mxc://u").data ∧ '<' ∉ ("cam").data ∧ '<' ∉ ("t0").data ∧ '<' ∉ ("person").data) ∧
    (occursIn phEND MATRIX_TEMPLATE = false ∧
     matrix_client.build_message ("mxc://u").data ("http://e").data
        (BvrChirpMessage.new ("1").data ("cam").data ("person").data ("42").data ("t0").data []) =
      matrix_client.build_message_without_endpoint_step ("mxc://u").data
        (BvrChirpMessage.new ("1").data ("cam").data ("person").data ("42").data ("t0").data [])) :=
  ⟨by decide,
   claim_C10_amended ("mxc://u").data ("http://e").data
     (BvrChirpMessage.new ("1").data ("cam").data ("person").data ("42").data ("t0").data [])
     (by decide) (by decide) (by decide) (by decide)⟩

/-- C10 counterexample: the claim as stated (for every alert and endpoint) is
false.  With `detections = "<ENDPOINT_URL>"`, the final replacement step is
not an identity and the rendered Matrix output does contain the constructed
deep-link URL. -/
theorem claim_C10_counterexample :
    matrix_client.build_message ("U").data ("E").data
        (BvrChirpMessage.new ("1").data ("c").data ("<ENDPOINT_URL>").data ("4").data ("T").data []) ≠
      matrix_client.build_message_without_endpoint_step ("U").data
        (BvrChirpMessage.new ("1").data ("c").data ("<ENDPOINT_URL>").data ("4").data ("T").data []) ∧
    occursIn (matrix_client.endpoint_url ("E").data
        (BvrChirpMessage.new ("1").data ("c").data ("<ENDPOINT_URL>").data ("4").data ("T").data []))
      (matrix_client.build_message ("U").data ("E").data
        (BvrChirpMessage.new ("1").data ("c").data ("<ENDPOINT_URL>").data ("4").data ("T").data [])) = true := by
  constructor
  · decide
  · decide

/-- The fan-out updates every registered client's queue in place: each live
queue gets exactly the one new record appended, dropped queues are left
unchanged, names and order are preserved. -/
lemma sendAll_clients (m : BvrChirpMessage) : ∀ cs : List TxClient,
    (sendAll m cs).1 = cs.map (fun c =>
      { name := c.name, queue := c.queue.map (fun q => q ++ [m]) })
  | [] => rfl
  | c :: rest => by
    obtain ⟨nm, q⟩ := c
    simp only [sendAll, List.map_cons]
    rw [sendAll_clients m rest]
    cases q <;> simp [txSend]

/-- The fan-out logs one line per registered client, in registration order:
a pass line for a live queue, a failure line for a dropped one. -/
lemma sendAll_logs (m : BvrChirpMessage) : ∀ cs : List TxClient,
    (sendAll m cs).2 = cs.map (fun c =>
      match c.queue with
      | some _ => ("MQTT: Passed message to ").data ++ c.name
      | none => ("MQTT: Failed to send message through channel to ").data ++ c.name)
  | [] => rfl
  | c :: rest => by
    obtain ⟨nm, q⟩ := c
    simp only [sendAll, List.map_cons]
    rw [sendAll_logs m rest]
    cases q <;> simp [txSend]

/-- C1: for every well-formed inbound payload (all six fields extract and the
image base64-decodes), the ingestion loop appends exactly one copy of the
decoded Alert Record to every registered destination's queue, in registration
order; a destination whose receiving end is dropped gets a logged failure and
the sends to all other destinations still occur; and `main` registers exactly
the enabled destinations (none of the disabled ones). -/
theorem claim_C1 (b64 : Str → Option (List Nat)) (j : Json) (clients : List TxClient)
    (f : RawFields) (image : List Nat)
    (hext : extract_fields j = .ok f) (hb64 : b64 f.image_base64 = some image) :
    (handlePublish b64 j clients).1 = clients.map (fun c =>
      { name := c.name, queue := c.queue.map (fun q =>
          q ++ [BvrChirpMessage.new f.target f.camera f.detections f.db_id f.time image]) }) ∧
    (handlePublish b64 j clients).2 =
      (("MQTT: Received message for camera: \"").data ++ (f.camera ++ [Char.ofNat 34])) ::
        clients.map (fun c =>
          match c.queue with
          | some _ => ("MQTT: Passed message to ").data ++ c.name
          | none => ("MQTT: Failed to send message through channel to ").data ++ c.name) ∧
    (∀ cfg : BvrChirpConfig,
      ((("Discord").data ∈ tx_senders_names cfg) ↔ cfg.discord_config.enabled = true) ∧
      ((("Matrix").data ∈ tx_senders_names cfg) ↔ cfg.matrix_config.enabled = true) ∧
      ((("Slack").data ∈ tx_senders_names cfg) ↔ cfg.slack_config.enabled = true)) := by
  refine ⟨?_, ?_, ?_⟩
  · simp only [handlePublish, hext, hb64, sendAll_clients]
  · simp only [handlePublish, hext, hb64, sendAll_logs]
  · intro cfg
    obtain ⟨ae, mq, mx, dc, sl⟩ := cfg
    obtain ⟨de, _, _, _, _, _, _⟩ := mx
    obtain ⟨dd, _, _, _⟩ := dc
    obtain ⟨ds, _, _, _⟩ := sl
    cases dd <;> cases de <;> cases ds <;> simp [tx_senders_names]

/-- C1 witness: a concrete well-formed payload fanned out to one live and one
dropped queue. -/
theorem claim_C1_witness :
    (extract_fields (Json.jobj
      [(("target").data, Json.jstr ("1").data), (("camera").data, Json.jstr ("cam").data),
       (("detections").data, Json.jstr ("person").data), (("db_id").data, Json.jstr ("42").data),
       (("time").data, Json.jstr ("t0").data), (("image").data, Json.jstr ("QUJD").data)]) =
      .ok { target := ("1").data, camera := ("cam").data, detections := ("person").data,
            db_id := ("42").data, time := ("t0").data, image_base64 := ("QUJD").data }) ∧
    (handlePublish (fun _ => some [65, 66, 67]) (Json.jobj
      [(("target").data, Json.jstr ("1").data), (("camera").data, Json.jstr ("cam").data),
       (("detections").data, Json.jstr ("person").data), (("db_id").data, Json.jstr ("42").data),
       (("time").data, Json.jstr ("t0").data), (("image").data, Json.jstr ("QUJD").data)])
      ([{ name := ("Discord").data, queue := some [] },
        { name := ("Matrix").data, queue := none }] : List TxClient)).1 =
      ([{ name := ("Discord").data, queue := some [] },
        { name := ("Matrix").data, queue := none }] : List TxClient).map (fun c =>
        { name := c.name, queue := c.queue.map (fun q =>
            q ++ [BvrChirpMessage.new ("1").data ("cam").data ("person").data ("42").data ("t0").data [65, 66, 67]]) }) :=
  ⟨rfl,
   (claim_C1 (fun _ => some [65, 66, 67])
     (Json.jobj
       [(("target").data, Json.jstr ("1").data), (("camera").data, Json.jstr ("cam").data),
        (("detections").data, Json.jstr ("person").data), (("db_id").data, Json.jstr ("42").data),
        (("time").data, Json.jstr ("t0").data), (("image").data, Json.jstr ("QUJD").data)])
     ([{ name := ("Discord").data, queue := some [] },
       { name := ("Matrix").data, queue := none }] : List TxClient)
     { target := ("1").data, camera := ("cam").data, detections := ("person").data,
       db_id := ("42").data, time := ("t0").data, image_base64 := ("QUJD").data }
     [65, 66, 67] rfl rfl).1⟩

/-- C2: an inbound payload that is valid JSON but misses one of the six
required fields (or has a non-string value there) produces zero Alert
Records — every queue is left untouched and the only log line is the
diagnostic naming a missing field — and the ingestion loop goes on to
process the remaining events against the unchanged queues. -/
theorem claim_C2 (b64 : Str → Option (List Nat)) (j : Json) (rest : List MqttEvent)
    (clients : List TxClient)
    (hmiss : ∃ f ∈ requiredFields, (j.index f).as_str = none) :
    (∃ f ∈ requiredFields, (j.index f).as_str = none ∧
      handlePublish b64 j clients = (clients, [missingFieldMsg f])) ∧
    runLoop b64 (.publishJson j :: rest) clients =
      ((runLoop b64 rest clients).1,
        (handlePublish b64 j clients).2 ++ (runLoop b64 rest clients).2) := by
  have hfirst : ∃ f ∈ requiredFields, (j.index f).as_str = none ∧
      handlePublish b64 j clients = (clients, [missingFieldMsg f]) := by
    cases h1 : (j.index ("target").data).as_str with
    | none =>
      refine ⟨("target").data, by decide, h1, ?_⟩
      simp only [handlePublish, extract_fields, h1]
      exact congrArg _ (by decide)
    | some v1 =>
    cases h2 : (j.index ("camera").data).as_str with
    | none =>
      refine ⟨("camera").data, by decide, h2, ?_⟩
      simp only [handlePublish, extract_fields, h1, h2]
      exact congrArg _ (by decide)
    | some v2 =>
    cases h3 : (j.index ("detections").data).as_str with
    | none =>
      refine ⟨("detections").data, by decide, h3, ?_⟩
      simp only [handlePublish, extract_fields, h1, h2, h3]
      exact congrArg _ (by decide)
    | some v3 =>
    cases h4 : (j.index ("db_id").data).as_str with
    | none =>
      refine ⟨("db_id").data, by decide, h4, ?_⟩
      simp only [handlePublish, extract_fields, h1, h2, h3, h4]
      exact congrArg _ (by decide)
    | some v4 =>
    cases h5 : (j.index ("time").data).as_str with
    | none =>
      refine ⟨("time").data, by decide, h5, ?_⟩
      simp only [handlePublish, extract_fields, h1, h2, h3, h4, h5]
      exact congrArg _ (by decide)
    | some v5 =>
    cases h6 : (j.index ("image").data).as_str with
    | none =>
      refine ⟨("image").data, by decide, h6, ?_⟩
      simp only [handlePublish, extract_fields, h1, h2, h3, h4, h5, h6]
      exact congrArg _ (by decide)
    | some v6 =>
      exfalso
      obtain ⟨f, hf, hnone⟩ := hmiss
      simp only [requiredFields, List.mem_cons, List.not_mem_nil, or_false] at hf
      rcases hf with rfl | rfl | rfl | rfl | rfl | rfl
      · rw [h1] at hnone; exact Option.noConfusion hnone
      · rw [h2] at hnone; exact Option.noConfusion hnone
      · rw [h3] at hnone; exact Option.noConfusion hnone
      · rw [h4] at hnone; exact Option.noConfusion hnone
      · rw [h5] at hnone; exact Option.noConfusion hnone
      · rw [h6] at hnone; exact Option.noConfusion hnone
  refine ⟨hfirst, ?_⟩
  obtain ⟨f, _, _, heq⟩ := hfirst
  simp only [runLoop, heq]

/-- C2 witness: a payload whose `db_id` is a number (non-string), processed
against one live queue, leaves the queue untouched, logs the `db_id`
diagnostic and the loop continues. -/
theorem claim_C2_witness :
    (∃ f ∈ requiredFields, ((Json.jobj
      [(("target").data, Json.jstr ("1").data), (("camera").data, Json.jstr ("cam").data),
       (("detections").data, Json.jstr ("person").data), (("db_id").data, Json.jnum 42),
       (("time").data, Json.jstr ("t0").data), (("image").data, Json.jstr ("QUJD").data)]).index f).as_str = none) ∧
    (∃ f ∈ requiredFields, ((Json.jobj
      [(("target").data, Json.jstr ("1").data), (("camera").data, Json.jstr ("cam").data),
       (("detections").data, Json.jstr ("person").data), (("db_id").data, Json.jnum 42),
       (("time").data, Json.jstr ("t0").data), (("image").data, Json.jstr ("QUJD").data)]).index f).as_str = none ∧
      handlePublish (fun _ => some []) (Json.jobj
        [(("target").data, Json.jstr ("1").data), (("camera").data, Json.jstr ("cam").data),
         (("detections").data, Json.jstr ("person").data), (("db_id").data, Json.jnum 42),
         (("time").data, Json.jstr ("t0").data), (("image").data, Json.jstr ("QUJD").data)])
        ([{ name := ("Discord").data, queue := some [] }] : List TxClient) =
        (([{ name := ("Discord").data, queue := some [] }] : List TxClient), [missingFieldMsg f])) ∧
    runLoop (fun _ => some [])
        (MqttEvent.publishJson (Json.jobj
          [(("target").data, Json.jstr ("1").data), (("camera").data, Json.jstr ("cam").data),
           (("detections").data, Json.jstr ("person").data), (("db_id").data, Json.jnum 42),
           (("time").data, Json.jstr ("t0").data), (("image").data, Json.jstr ("QUJD").data)]) :: [])
        ([{ name := ("Discord").data, queue := some [] }] : List TxClient) =
      ((runLoop (fun _ => some []) []
          ([{ name := ("Discord").data, queue := some [] }] : List TxClient)).1,
        (handlePublish (fun _ => some []) (Json.jobj
          [(("target").data, Json.jstr ("1").data), (("camera").data, Json.jstr ("cam").data),
           (("detections").data, Json.jstr ("person").data), (("db_id").data, Json.jnum 42),
           (("time").data, Json.jstr ("t0").data), (("image").data, Json.jstr ("QUJD").data)])
          ([{ name := ("Discord").data, queue := some [] }] : List TxClient)).2 ++
          (runLoop (fun _ => some []) []
            ([{ name := ("Discord").data, queue := some [] }] : List TxClient)).2) :=
  ⟨by decide,
   (claim_C2 (fun _ => some []) (Json.jobj
      [(("target").data, Json.jstr ("1").data), (("camera").data, Json.jstr ("cam").data),
       (("detections").data, Json.jstr ("person").data), (("db_id").data, Json.jnum 42),
       (("time").data, Json.jstr ("t0").data), (("image").data, Json.jstr ("QUJD").data)]) []
      ([{ name := ("Discord").data, queue := some [] }] : List TxClient) (by decide)).1,
   (claim_C2 (fun _ => some []) (Json.jobj
      [(("target").data, Json.jstr ("1").data), (("camera").data, Json.jstr ("cam").data),
       (("detections").data, Json.jstr ("person").data), (("db_id").data, Json.jnum 42),
       (("time").data, Json.jstr ("t0").data), (("image").data, Json.jstr ("QUJD").data)]) []
      ([{ name := ("Discord").data, queue := some [] }] : List TxClient) (by decide)).2⟩

/-- C3: evaluation of the Slack upload-then-post adapter at each failing
step.  A `get_upload_url` or `complete_upload` failure yields a delivery
error with the send step never invoked — but a failure of the upload-bytes
step does NOT yield a delivery error: `upload_file` panics through
`.expect("TODO: panic message")`, crashing the worker thread, contradicting
the claim (and `upload_file`'s own documentation, which promises `Err` if
any step of the upload process fails). -/
theorem claim_C3_bug_eval :
    slack_client.process_alert
      { get_upload_url_result := .error ("http 500").data,
        upload_file_data_result := .ok (), complete_upload_result := .ok (),
        send_message_result := .ok () } ("http://e").data
      (BvrChirpMessage.new ("1").data ("cam").data ("person").data ("42").data ("t0").data []) =
      (.deliveryError (("Image upload failed: ").data ++ ("http 500").data), false) ∧
    slack_client.process_alert
      { get_upload_url_result := .ok { upload_url := ("u").data, file_id := ("F1").data },
        upload_file_data_result := .error ("Upload failed with status: 500").data,
        complete_upload_result := .ok (), send_message_result := .ok () } ("http://e").data
      (BvrChirpMessage.new ("1").data ("cam").data ("person").data ("42").data ("t0").data []) =
      (.panicked ("TODO: panic message").data, false) ∧
    slack_client.process_alert
      { get_upload_url_result := .ok { upload_url := ("u").data, file_id := ("F1").data },
        upload_file_data_result := .ok (),
        complete_upload_result := .error ("http 500").data, send_message_result := .ok () } ("http://e").data
      (BvrChirpMessage.new ("1").data ("cam").data ("person").data ("42").data ("t0").data []) =
      (.deliveryError (("Image upload failed: ").data ++ ("http 500").data), false) :=
  ⟨rfl, rfl, rfl⟩

/-- C5: the literal alert routed through the Discord adapter with
`alert_endpoint = "http://127.0.0.1:81"`: the channel id parses, the deep
link is exactly `http://127.0.0.1:81/ui3.htm?rec=42&cam=front_door&m=1`, and
the message body contains `front_door`, `person` and
`2024-01-01 10:00:00` verbatim. -/
theorem claim_C5 :
    discord_client.handle_message ("http://127.0.0.1:81").data
      (BvrChirpMessage.new ("123456789012345678").data ("front_door").data ("person").data
        ("42").data ("2024-01-01 10:00:00").data [255, 216]) =
      some (123456789012345678,
        { title := ("Detection on front_door camera").data,
          url := ("http://127.0.0.1:81/ui3.htm?rec=42&cam=front_door&m=1").data,
          fields := [(("**Detections**").data, ("person").data),
                     (("**Time**").data, ("2024-01-01 10:00:00").data)] },
        ("front_door.jpg").data) ∧
    occursIn ("front_door").data (discord_client.embed_body
      { title := ("Detection on front_door camera").data,
        url := ("http://127.0.0.1:81/ui3.htm?rec=42&cam=front_door&m=1").data,
        fields := [(("**Detections**").data, ("person").data),
                   (("**Time**").data, ("2024-01-01 10:00:00").data)] }) = true ∧
    occursIn ("person").data (discord_client.embed_body
      { title := ("Detection on front_door camera").data,
        url := ("http://127.0.0.1:81/ui3.htm?rec=42&cam=front_door&m=1").data,
        fields := [(("**Detections**").data, ("person").data),
                   (("**Time**").data, ("2024-01-01 10:00:00").data)] }) = true ∧
    occursIn ("2024-01-01 10:00:00").data (discord_client.embed_body
      { title := ("Detection on front_door camera").data,
        url := ("http://127.0.0.1:81/ui3.htm?rec=42&cam=front_door&m=1").data,
        fields := [(("**Detections**").data, ("person").data),
                   (("**Time**").data, ("2024-01-01 10:00:00").data)] }) = true := by
  refine ⟨?_, ?_, ?_, ?_⟩ <;> decide

/-- C6 counterexample: the claim (a nonexistent config file makes the process
exit non-zero) is false on the code: `load_config` logs "trying defaults"
and returns `Ok(default)`, so `main` starts the core with the default
configuration. -/
theorem claim_C6_counterexample :
    mainStartup (fun _ => none) [("bvr_chirp").data, ("/etc/missing.toml").data] =
      .coreStarted BvrChirpConfig.defaultConfig := rfl

/-- C6 (amended): the process exits with status 1 before the core starts when
the config-path argument is missing or empty, or when the config file exists
but fails to load; a config path naming a nonexistent file does NOT exit —
the core starts with the default configuration. -/
theorem claim_C6_amended (fs : Str → Option (Except ConfyError BvrChirpConfig))
    (args : List Str) :
    (args[1]? = none → mainStartup fs args = .exited 1) ∧
    (∀ p, args[1]? = some p → p = [] → mainStartup fs args = .exited 1) ∧
    (∀ p e, args[1]? = some p → p ≠ [] → fs p = some (.error e) →
      mainStartup fs args = .exited 1) ∧
    (∀ p, args[1]? = some p → p ≠ [] → fs p = none →
      mainStartup fs args = .coreStarted BvrChirpConfig.defaultConfig) := by
  refine ⟨?_, ?_, ?_, ?_⟩
  · intro h
    simp [mainStartup, h]
  · intro p hp he
    simp [mainStartup, hp, he]
  · intro p e hp he hfs
    simp [mainStartup, hp, he, load_config, hfs]
  · intro p hp he hfs
    simp [mainStartup, hp, he, load_config, hfs]

/-- C6 witness: the amended theorem at concrete argument lists and file
systems. -/
theorem claim_C6_witness :
    mainStartup (fun _ => none) ([] : List Str) = .exited 1 ∧
    mainStartup (fun _ => none) [("bvr_chirp").data, []] = .exited 1 ∧
    mainStartup (fun _ => some (.error (.otherError ("io error").data)))
      [("bvr_chirp").data, ("cfg.toml").data] = .exited 1 ∧
    mainStartup (fun _ => none) [("bvr_chirp").data, ("cfg.toml").data] =
      .coreStarted BvrChirpConfig.defaultConfig :=
  ⟨(claim_C6_amended (fun _ => none) []).1 rfl,
   (claim_C6_amended (fun _ => none) [("bvr_chirp").data, []]).2.1 [] rfl rfl,
   (claim_C6_amended (fun _ => some (.error (.otherError ("io error").data)))
     [("bvr_chirp").data, ("cfg.toml").data]).2.2.1 ("cfg.toml").data
     (.otherError ("io error").data) rfl (by decide) rfl,
   (claim_C6_amended (fun _ => none) [("bvr_chirp").data, ("cfg.toml").data]).2.2.2
     ("cfg.toml").data rfl (by decide) rfl⟩

/-- C8 counterexample: the claim (an init failure only disables that
destination and never aborts the process) is false on the code: when the
Matrix client cannot be constructed, `run_matrix_client` calls `exit(1)`,
aborting the whole process. -/
theorem claim_C8_counterexample :
    matrix_client.run_matrix_client_start (.error ("bad credentials").data) =
      .procExit 1 := rfl

/-- C8 (amended): destination-init failure handling is inconsistent across
destinations.  Discord isolates the failure — `start` returns the error, so
only that worker thread ends and the process, the other destinations and
ingestion continue; Matrix aborts the entire process with `exit(1)`. -/
theorem claim_C8_amended (e : Str) :
    discord_client.start_init (.error e) =
      .errReturn (("DISCORD: Error connecting client: ").data ++ e) ∧
    discord_client.start_init (.error e) ≠ .procExit 1 ∧
    matrix_client.run_matrix_client_start (.error e) = .procExit 1 := by
  refine ⟨rfl, ?_, rfl⟩
  intro h
  exact WorkerStart.noConfusion h

/-- Invariant of the auto-join retry loop, for any starting delay: the
successive sleeps double the delay each time; abandonment happens exactly
when the next (doubled) delay would exceed the 3600 ceiling, logging the
permanent failure exactly once; a successful join never logs a permanent
failure. -/
lemma autojoinAux_spec (join : Nat → Bool) :
    ∀ (fuel k delay : Nat) (hd : 2 ≤ delay), 3601 - delay ≤ fuel →
      (∀ i (h : i < (matrix_client_root.autojoinAux join k delay hd).slept.length),
          (matrix_client_root.autojoinAux join k delay hd).slept.get ⟨i, h⟩ = delay * 2 ^ i) ∧
      ((matrix_client_root.autojoinAux join k delay hd).joined = false →
          (matrix_client_root.autojoinAux join k delay hd).permFailLogs = 1 ∧
          (matrix_client_root.autojoinAux join k delay hd).slept ≠ [] ∧
          3600 < delay * 2 ^ (matrix_client_root.autojoinAux join k delay hd).slept.length) ∧
      ((matrix_client_root.autojoinAux join k delay hd).joined = true →
          (matrix_client_root.autojoinAux join k delay hd).permFailLogs = 0) := by
  intro fuel
  induction fuel with
  | zero =>
    intro k delay hd hle
    have hc : 3600 < 2 * delay := by omega
    rw [matrix_client_root.autojoinAux]
    by_cases hj : join k = true
    · rw [if_pos hj]
      exact ⟨fun i h => absurd h (by simp), fun h => absurd h (by simp), fun _ => rfl⟩
    · rw [if_neg hj, dif_pos hc]
      refine ⟨?_, ?_, ?_⟩
      · intro i h
        simp only [List.length_cons, List.length_nil] at h
        have hi : i = 0 := by omega
        subst hi
        simp
      · intro _
        exact ⟨rfl, by simp, by simpa [pow_one] using (by omega : 3600 < delay * 2)⟩
      · intro h
        simp at h
  | succ fuel ih =>
    intro k delay hd hle
    by_cases hj : join k = true
    · rw [matrix_client_root.autojoinAux, if_pos hj]
      exact ⟨fun i h => absurd h (by simp), fun h => absurd h (by simp), fun _ => rfl⟩
    · by_cases hc : 3600 < 2 * delay
      · rw [matrix_client_root.autojoinAux, if_neg hj, dif_pos hc]
        refine ⟨?_, ?_, ?_⟩
        · intro i h
          simp only [List.length_cons, List.length_nil] at h
          have hi : i = 0 := by omega
          subst hi
          simp
        · intro _
          exact ⟨rfl, by simp, by simpa [pow_one] using (by omega : 3600 < delay * 2)⟩
        · intro h
          simp at h
      · have hrw : matrix_client_root.autojoinAux join k delay hd =
            { slept := delay ::
                (matrix_client_root.autojoinAux join (k + 1) (2 * delay) (by omega)).slept,
              permFailLogs :=
                (matrix_client_root.autojoinAux join (k + 1) (2 * delay) (by omega)).permFailLogs,
              joined :=
                (matrix_client_root.autojoinAux join (k + 1) (2 * delay) (by omega)).joined } := by
          rw [matrix_client_root.autojoinAux, if_neg hj, dif_neg hc]
        obtain ⟨ih1, ih2, ih3⟩ := ih (k + 1) (2 * delay) (by omega) (by omega)
        rw [hrw]
        refine ⟨?_, ?_, ?_⟩
        · intro i h
          cases i with
          | zero => simp
          | succ n =>
            simp only [List.length_cons, Nat.succ_lt_succ_iff] at h
            have := ih1 n h
            simp only [List.get_cons_succ]
            rw [this, pow_succ]
            ring
        · intro h
          simp only at h
          obtain ⟨hp, hne, hceil⟩ := ih2 h
          refine ⟨hp, by simp, ?_⟩
          simp only [List.length_cons]
          calc 3600 < 2 * delay * 2 ^ (matrix_client_root.autojoinAux join (k + 1) (2 * delay)
              (by omega)).slept.length := hceil
            _ = delay * 2 ^ ((matrix_client_root.autojoinAux join (k + 1) (2 * delay)
              (by omega)).slept.length + 1) := by rw [pow_succ]; ring
        · intro h
          simp only at h
          exact ih3 h

/-- C7: for every sequence of join outcomes, the auto-join loop's retry
delays are `2, 2·2, 2·2², …` (each double the previous, base 2); when the
joins keep failing the loop abandons exactly when the next doubled delay
would exceed the 3600-second ceiling, having emitted the permanent-failure
diagnostic exactly once, and the loop returns (it does not exit the process
or the worker); a join success produces no permanent-failure diagnostic. -/
theorem claim_C7 (join : Nat → Bool) :
    (∀ i (h : i < (matrix_client_root.autojoin join).slept.length),
        (matrix_client_root.autojoin join).slept.get ⟨i, h⟩ = 2 * 2 ^ i) ∧
    ((matrix_client_root.autojoin join).joined = false →
        (matrix_client_root.autojoin join).permFailLogs = 1 ∧
        (matrix_client_root.autojoin join).slept ≠ [] ∧
        3600 < 2 * 2 ^ (matrix_client_root.autojoin join).slept.length) ∧
    ((matrix_client_root.autojoin join).joined = true →
        (matrix_client_root.autojoin join).permFailLogs = 0) :=
  autojoinAux_spec join 3601 0 2 (by omega) (by omega)

/-- The auto-join loop under unbounded failures: delays 2,4,…,2048, one
permanent-failure log, no join. -/
lemma autojoin_eval_fail : matrix_client_root.autojoin (fun _ => false) =
    { slept := [2, 4, 8, 16, 32, 64, 128, 256, 512, 1024, 2048],
      permFailLogs := 1, joined := false } := by
  simp [matrix_client_root.autojoin, matrix_client_root.autojoinAux]

/-- The auto-join loop when the second attempt succeeds. -/
lemma autojoin_eval_ok : matrix_client_root.autojoin (fun k => k != 0) =
    { slept := [2], permFailLogs := 0, joined := true } := by
  simp [matrix_client_root.autojoin, matrix_client_root.autojoinAux]

/-- C7 witness: the theorem applied to the all-failures and the
second-attempt-succeeds join sequences. -/
theorem claim_C7_witness :
    (matrix_client_root.autojoin (fun _ => false)).slept.get
      ⟨0, by rw [autojoin_eval_fail]; decide⟩ = 2 * 2 ^ 0 ∧
    (matrix_client_root.autojoin (fun _ => false)).permFailLogs = 1 ∧
    (matrix_client_root.autojoin (fun _ => false)).slept ≠ [] ∧
    3600 < 2 * 2 ^ (matrix_client_root.autojoin (fun _ => false)).slept.length ∧
    (matrix_client_root.autojoin (fun k => k != 0)).permFailLogs = 0 :=
  ⟨(claim_C7 (fun _ => false)).1 0 (by rw [autojoin_eval_fail]; decide),
   ((claim_C7 (fun _ => false)).2.1 (by rw [autojoin_eval_fail])).1,
   ((claim_C7 (fun _ => false)).2.1 (by rw [autojoin_eval_fail])).2.1,
   ((claim_C7 (fun _ => false)).2.1 (by rw [autojoin_eval_fail])).2.2,
   (claim_C7 (fun k => k != 0)).2.2 (by rw [autojoin_eval_ok])⟩

/-- C8 witness: the amended theorem at a concrete initialization error. -/
theorem claim_C8_witness :
    discord_client.start_init (.error ("bad credentials").data) =
      .errReturn (("DISCORD: Error connecting client: ").data ++ ("bad credentials").data) ∧
    discord_client.start_init (.error ("bad credentials").data) ≠ .procExit 1 ∧
    matrix_client.run_matrix_client_start (.error ("bad credentials").data) = .procExit 1 :=
  claim_C8_amended ("bad credentials").data
